import Mathlib

/-!
# gz3doom scene drawer and model draw adapter

A shallow embedding of `src/gl/scene/gl_scene.cpp` (`GLSceneDrawer`) and
`src/gl/models/gl_models.cpp` (`FGLModelRenderer`, `FModelVertexBuffer`).

The process-wide graphics pipeline state is an explicit record `GLState`
that every function takes and returns.  Every call a function issues is
appended to a trace together with the pipeline state it was issued in, so
that ordering properties ("drawn before", "while depth writes are off") can
be stated about the code.

Routines whose bodies are not part of the translated sources (the draw-list
draw methods, the portal manager, the light buffer, the post-processing
steps) are a parameter `env : ExtCall → Nat → GLState → GLState` giving the
effect on the pipeline state of each call instance; the functions translated
here never look inside it.

`float` values are rationals here.  The scene drawer and the draw adapter only
store them and hand them on (no arithmetic, no comparison), and all literals
that occur (`0`, `0.5`, `1`, `128`, ...) are exact.  `PrepareRenderHUDModel`
computes arguments such as `xoffset / xscale`; these are kept as unevaluated
expressions (`CExpr`), so nothing is claimed about their rounding, about
division by zero or about the value of a literal such as `0.01f` beyond the
number it denotes.
`int` statics are `Int`: the only arithmetic on them is `++`/`--` on small
counters.  The `int` products of `WriteSavePic` wrap at 32 bits.
-/

namespace GZ3Doom

/-! ## Graphics API enumerations -/

/-- Comparison functions accepted by `glDepthFunc` and the alpha test. -/
inductive GLCompare
  | GL_NEVER | GL_LESS | GL_EQUAL | GL_LEQUAL | GL_GREATER | GL_NOTEQUAL | GL_GEQUAL | GL_ALWAYS
  deriving DecidableEq, Repr

/-- Blend factors accepted by `BlendFunc`. -/
inductive GLBlend
  | GL_ZERO | GL_ONE | GL_SRC_COLOR | GL_ONE_MINUS_SRC_COLOR | GL_SRC_ALPHA
  | GL_ONE_MINUS_SRC_ALPHA | GL_DST_ALPHA | GL_ONE_MINUS_DST_ALPHA | GL_DST_COLOR
  | GL_ONE_MINUS_DST_COLOR
  deriving DecidableEq, Repr

/-- Front-face winding accepted by `glFrontFace`. -/
inductive GLWinding
  | GL_CW | GL_CCW
  deriving DecidableEq, Repr

/-- Capabilities toggled with `glEnable` / `glDisable` in the translated code. -/
inductive GLCap
  | GL_POLYGON_OFFSET_FILL | GL_CULL_FACE | GL_STENCIL_TEST | GL_SCISSOR_TEST
  | GL_DEPTH_TEST | GL_MULTISAMPLE
  deriving DecidableEq, Repr

/-- Texture modes of the render state (`SetTextureMode`). -/
inductive TexMode
  | TM_MODULATE | TM_MASK | TM_OPAQUE | TM_INVERSE
  deriving DecidableEq, Repr

/-- Pass type of the render state (`SetPassType` / `GetPassType`). -/
inductive EPassType
  | NORMAL_PASS | GBUFFER_PASS
  deriving DecidableEq, Repr

/-- Draw list categories (`di->drawlists[...]`). -/
inductive GLDrawListType
  | GLDL_PLAINWALLS | GLDL_PLAINFLATS | GLDL_MASKEDWALLS | GLDL_MASKEDFLATS
  | GLDL_MASKEDWALLSOFS | GLDL_MODELS | GLDL_TRANSLUCENT | GLDL_TRANSLUCENTBORDER
  deriving DecidableEq, Repr

/-- Draw passes handed to the draw-list draw methods. -/
inductive GLPass
  | GLPASS_ALL | GLPASS_LIGHTSONLY | GLPASS_DECALS | GLPASS_TRANSLUCENT
  deriving DecidableEq, Repr

/-- The `drawmode` argument of `DrawScene`; `DM_OTHER` stands for any `int`
that is none of the three modes the function tests for. -/
inductive EDrawMode
  | DM_MAINVIEW | DM_OFFSCREEN | DM_PORTAL | DM_OTHER
  deriving DecidableEq, Repr

/-! ## Matrices

`VSMatrix` is used by the translated code only through `loadIdentity`,
`multMatrix`, `scale`, `translate`, `rotate` and assignment.  A matrix is
represented by the sequence of factors multiplied onto the identity, in
multiplication order. -/

/-- An arithmetic expression of the source, kept unevaluated.  Where the code
computes a matrix argument (`xoffset / xscale`, `5 + gl_weaponOfsZ`, ...) the
embedding records the expression: the value is what C++ makes of it (usual
arithmetic conversions, rounding, narrowing to the parameter type, infinities
and NaN), which is not modelled.  A leaf `input` is a variable or constant the
code reads, given by its value, which is taken to be finite; a literal is given
by the exact value of the number it denotes, so `0.01f` is
`floatLit (5368709/536870912)` and `4.` is `doubleLit 4`. -/
inductive CExpr
  | input (value : ℚ)
  | intLit (n : Int)
  | floatLit (value : ℚ)
  | doubleLit (value : ℚ)
  | neg (a : CExpr)
  | add (a b : CExpr)
  | sub (a b : CExpr)
  | div (a b : CExpr)
  deriving DecidableEq, Repr

/-- One factor multiplied onto a matrix.  The first three kinds carry values
that the code hands on as they are; the last three carry the expressions the
code computes the arguments with. -/
inductive MatOp
  | multMatrix (handle : Nat)
  | scale (x y z : ℚ)
  | translate (x y z : ℚ)
  | rotate (angle x y z : ℚ)
  | scaleExpr (x y z : CExpr)
  | translateExpr (x y z : CExpr)
  | rotateExpr (angle x y z : CExpr)
  deriving DecidableEq, Repr

/-- A matrix: the identity multiplied by `factors`, first factor first. -/
structure VSMatrix where
  factors : List MatOp
  deriving DecidableEq, Repr

/-! ## Pipeline state -/

/-- The part of the process-wide pipeline state (raw GL state and
`gl_RenderState`) that the translated functions write. -/
structure GLState where
  depthMask : Bool
  depthFunc : GLCompare
  polygonOffsetFill : Bool
  polygonOffsetFactor : ℚ
  polygonOffsetUnits : ℚ
  cullFace : Bool
  frontFace : GLWinding
  stencilTest : Bool
  scissorTest : Bool
  depthTest : Bool
  multisample : Bool
  fog : Bool
  srcBlend : GLBlend
  dstBlend : GLBlend
  alphaFunc : GLCompare
  alphaThreshold : ℚ
  textureEnabled : Bool
  brightmap : Bool
  textureMode : TexMode
  passType : EPassType
  mModelMatrix : VSMatrix
  modelMatrixEnabled : Bool
  deriving DecidableEq, Repr

/-- Argument of `EnableDrawBuffers`: a literal count or the value of
`GetPassDrawBufferCount()`. -/
inductive DrawBufferCount
  | literal (n : Nat)
  | passDrawBufferCount
  deriving DecidableEq, Repr

/-- Calls into routines whose bodies are outside the translated sources. -/
inductive ExtCall
  | RenderFirstSkyPortal (recursion : Int)
  | SortWalls (list : GLDrawListType)
  | SortFlats (list : GLDrawListType)
  | LightsBegin
  | LightsFinish
  | DrawWalls (list : GLDrawListType) (pass : GLPass)
  | DrawFlats (list : GLDrawListType) (pass : GLPass)
  | Draw (list : GLDrawListType) (pass : GLPass) (trans : Bool)
  | DrawSorted (list : GLDrawListType)
  | DrawDecals
  | DrawUnhandledMissingTextures
  | CreateScene
  | DrawPlayerSprites (hudModelStep : Bool)
  | AmbientOccludeScene
  | BindSceneFB (sceneData : Bool)
  | PortalBegin
  | PortalEnd
  | BeginScene
  deriving DecidableEq, Repr

/-- Every call the translated functions issue. -/
inductive Call
  | glDepthMask (flag : Bool)
  | glDepthFunc (func : GLCompare)
  | glEnable (cap : GLCap)
  | glDisable (cap : GLCap)
  | glPolygonOffset (factor units : ℚ)
  | glFrontFace (mode : GLWinding)
  | glClearDepth
  | EnableFog (enable : Bool)
  | BlendFunc (src dst : GLBlend)
  | AlphaFunc (func : GLCompare) (thresh : ℚ)
  | EnableTexture (enable : Bool)
  | EnableBrightmap (enable : Bool)
  | SetTextureMode (mode : TexMode)
  | SetCameraPos
  | ResetColor
  | SetSoftLightLevel (level : Int)
  | EnableDrawBuffers (count : DrawBufferCount)
  | Apply
  | ApplyMatrices
  | SetModelMatrix (m : VSMatrix)
  | EnableModelMatrix (enable : Bool)
  | RenderScene (recursion : Int)
  | RenderTranslucent
  | external (e : ExtCall)
  | glViewport
  | LoadIdentityViewMatrix
  | OrthoProjectionMatrix
  | SetNormalViewMatrix (m : VSMatrix)
  deriving DecidableEq, Repr

/-- A trace entry: the call and the pipeline state it was issued in. -/
structure Event where
  call : Call
  pre : GLState
  deriving DecidableEq, Repr

/-- Everything the translated functions read and write: the pipeline
state, the two function-local statics of `DrawScene`, and the trace. -/
structure World where
  gl : GLState
  recursion : Int
  ssao_portals_available : Int
  trace : List Event
  deriving DecidableEq, Repr

/-- Effect of the external routines on the pipeline state.  What such a
routine does may depend on data outside `GLState` (the draw lists, the level),
so the effect is given per call instance: the `Nat` is the number of calls
issued before it, which identifies the instance within a run. -/
abbrev Env := ExtCall → Nat → GLState → GLState

/-- Issue call `c` whose effect on the pipeline state is `f`. -/
def World.emit (c : Call) (f : GLState → GLState) (w : World) : World :=
  { w with gl := f w.gl, trace := w.trace ++ [⟨c, w.gl⟩] }

/-- Call an external routine. -/
def callExt (env : Env) (e : ExtCall) (w : World) : World :=
  w.emit (.external e) (env e w.trace.length)

/-- Write one capability bit. -/
def GLState.setCap (s : GLState) (cap : GLCap) (enable : Bool) : GLState :=
  match cap with
  | .GL_POLYGON_OFFSET_FILL => { s with polygonOffsetFill := enable }
  | .GL_CULL_FACE => { s with cullFace := enable }
  | .GL_STENCIL_TEST => { s with stencilTest := enable }
  | .GL_SCISSOR_TEST => { s with scissorTest := enable }
  | .GL_DEPTH_TEST => { s with depthTest := enable }
  | .GL_MULTISAMPLE => { s with multisample := enable }

def glDepthMask (flag : Bool) (w : World) : World :=
  w.emit (.glDepthMask flag) (fun s => { s with depthMask := flag })

def glDepthFunc (func : GLCompare) (w : World) : World :=
  w.emit (.glDepthFunc func) (fun s => { s with depthFunc := func })

def glEnable (cap : GLCap) (w : World) : World :=
  w.emit (.glEnable cap) (fun s => s.setCap cap true)

def glDisable (cap : GLCap) (w : World) : World :=
  w.emit (.glDisable cap) (fun s => s.setCap cap false)

def glPolygonOffset (factor units : ℚ) (w : World) : World :=
  w.emit (.glPolygonOffset factor units)
    (fun s => { s with polygonOffsetFactor := factor, polygonOffsetUnits := units })

def glFrontFace (mode : GLWinding) (w : World) : World :=
  w.emit (.glFrontFace mode) (fun s => { s with frontFace := mode })

/-- The call `glClear(GL_DEPTH_BUFFER_BIT)`; buffers are not part of `GLState`. -/
def glClearDepth (w : World) : World :=
  w.emit .glClearDepth id

def EnableFog (enable : Bool) (w : World) : World :=
  w.emit (.EnableFog enable) (fun s => { s with fog := enable })

def BlendFunc (src dst : GLBlend) (w : World) : World :=
  w.emit (.BlendFunc src dst) (fun s => { s with srcBlend := src, dstBlend := dst })

def AlphaFunc (func : GLCompare) (thresh : ℚ) (w : World) : World :=
  w.emit (.AlphaFunc func thresh) (fun s => { s with alphaFunc := func, alphaThreshold := thresh })

def EnableTexture (enable : Bool) (w : World) : World :=
  w.emit (.EnableTexture enable) (fun s => { s with textureEnabled := enable })

def EnableBrightmap (enable : Bool) (w : World) : World :=
  w.emit (.EnableBrightmap enable) (fun s => { s with brightmap := enable })

def SetTextureMode (mode : TexMode) (w : World) : World :=
  w.emit (.SetTextureMode mode) (fun s => { s with textureMode := mode })

/-- The call `gl_RenderState.SetCameraPos(...)`; the camera position is not part of `GLState`. -/
def SetCameraPos (w : World) : World :=
  w.emit .SetCameraPos id

/-- The call `gl_RenderState.ResetColor()`; the colour is not part of `GLState`. -/
def ResetColor (w : World) : World :=
  w.emit .ResetColor id

/-- The call `gl_RenderState.SetSoftLightLevel(level)`; not part of `GLState`. -/
def SetSoftLightLevel (level : Int) (w : World) : World :=
  w.emit (.SetSoftLightLevel level) id

/-- The call `gl_RenderState.EnableDrawBuffers(count)`; not part of `GLState`. -/
def EnableDrawBuffers (count : DrawBufferCount) (w : World) : World :=
  w.emit (.EnableDrawBuffers count) id

/-- The call `gl_RenderState.Apply()`: pushes the render state to the API. -/
def Apply (w : World) : World :=
  w.emit .Apply id

/-- The call `gl_RenderState.ApplyMatrices()`. -/
def ApplyMatrices (w : World) : World :=
  w.emit .ApplyMatrices id

/-- The assignment `gl_RenderState.mModelMatrix = m`. -/
def SetModelMatrix (m : VSMatrix) (w : World) : World :=
  w.emit (.SetModelMatrix m) (fun s => { s with mModelMatrix := m })

def EnableModelMatrix (enable : Bool) (w : World) : World :=
  w.emit (.EnableModelMatrix enable) (fun s => { s with modelMatrixEnabled := enable })

/-! ## Scene drawer (`gl_scene.cpp`) -/

/-- Console variables and per-frame answers of collaborators that the scene
drawer reads. -/
structure Config where
  gl_texture : Bool
  gl_no_skyclear : Bool
  gl_mask_threshold : ℚ
  gl_mask_sprite_threshold : ℚ
  gl_sort_textures : Bool
  gl_ssao_portals : Int
  /-- Value of `gl.lightmethod == LM_DEFERRED`. -/
  lightmethodDeferred : Bool
  /-- Value of `level.HasDynamicLights`. -/
  HasDynamicLights : Bool
  /-- Value of `s3d::Stereo3DMode::getCurrentMode().RenderPlayerSpritesInScene()`. -/
  RenderPlayerSpritesInScene : Bool
  /-- Value of `IsHUDModelForPlayerAvailable(players[consoleplayer].camera->player)`. -/
  hudModelAvailable : Bool
  deriving DecidableEq, Repr

/-- The part of `FDrawInfo` the scene drawer reads: `drawlists[l].Size()`
and `isFullbrightScene()`. -/
structure FDrawInfo where
  drawlistSize : GLDrawListType → Nat
  isFullbrightScene : Bool

mutual
/-- A scene as `CreateScene` leaves it: the filled draw info and the
portals collected while building it, each with the scene seen through it. -/
inductive Scene
  | mk (di : FDrawInfo) (portals : PortalList)
/-- The pending portals of a scene, in processing order. -/
inductive PortalList
  | nil
  | cons (p : Scene) (rest : PortalList)
end

/-- `GLSceneDrawer::RenderScene`.  The profiling clock `RenderAll` is left out. -/
def RenderScene (env : Env) (cfg : Config) (di : FDrawInfo) (recursion : Int)
    (w : World) : World :=
  let w := glDepthMask true w
  let w := if !cfg.gl_no_skyclear then callExt env (.RenderFirstSkyPortal recursion) w else w
  let w := SetCameraPos w
  let w := EnableFog true w
  let w := BlendFunc .GL_ONE .GL_ZERO w
  let w :=
    if cfg.gl_sort_textures then
      let w := callExt env (.SortWalls .GLDL_PLAINWALLS) w
      let w := callExt env (.SortFlats .GLDL_PLAINFLATS) w
      let w := callExt env (.SortWalls .GLDL_MASKEDWALLS) w
      let w := callExt env (.SortFlats .GLDL_MASKEDFLATS) w
      callExt env (.SortWalls .GLDL_MASKEDWALLSOFS) w
    else w
  let w :=
    if cfg.lightmethodDeferred && cfg.HasDynamicLights && !di.isFullbrightScene then
      let w := callExt env .LightsBegin w
      let w := callExt env (.DrawFlats .GLDL_PLAINFLATS .GLPASS_LIGHTSONLY) w
      let w := callExt env (.DrawFlats .GLDL_MASKEDFLATS .GLPASS_LIGHTSONLY) w
      let w := callExt env (.Draw .GLDL_TRANSLUCENTBORDER .GLPASS_LIGHTSONLY false) w
      let w := callExt env (.Draw .GLDL_TRANSLUCENT .GLPASS_LIGHTSONLY true) w
      callExt env .LightsFinish w
    else w
  -- Part 1: solid geometry
  let w := glDepthFunc .GL_LESS w
  let w := AlphaFunc .GL_GEQUAL 0 w
  let w := glDisable .GL_POLYGON_OFFSET_FILL w
  let pass := GLPass.GLPASS_ALL
  let w := EnableTexture cfg.gl_texture w
  let w := EnableBrightmap true w
  let w := callExt env (.DrawWalls .GLDL_PLAINWALLS pass) w
  let w := callExt env (.DrawFlats .GLDL_PLAINFLATS pass) w
  -- Part 2: masked geometry
  let w :=
    if !cfg.gl_texture then
      let w := EnableTexture true w
      SetTextureMode .TM_MASK w
    else w
  let w := AlphaFunc .GL_GEQUAL cfg.gl_mask_threshold w
  let w := callExt env (.DrawWalls .GLDL_MASKEDWALLS pass) w
  let w := callExt env (.DrawFlats .GLDL_MASKEDFLATS pass) w
  -- Part 3: masked geometry with polygon offset
  let w :=
    if di.drawlistSize .GLDL_MASKEDWALLSOFS > 0 then
      let w := glEnable .GL_POLYGON_OFFSET_FILL w
      let w := glPolygonOffset (-1) (-128) w
      let w := callExt env (.DrawWalls .GLDL_MASKEDWALLSOFS pass) w
      let w := glDisable .GL_POLYGON_OFFSET_FILL w
      glPolygonOffset 0 0 w
    else w
  let w := callExt env (.Draw .GLDL_MODELS pass false) w
  let w := BlendFunc .GL_SRC_ALPHA .GL_ONE_MINUS_SRC_ALPHA w
  -- Part 4: decals
  let w := glDepthFunc .GL_LEQUAL w
  let w := glEnable .GL_POLYGON_OFFSET_FILL w
  let w := glPolygonOffset (-1) (-128) w
  let w := glDepthMask false w
  let w := callExt env .DrawDecals w
  let w := SetTextureMode .TM_MODULATE w
  let w := glDepthMask true w
  let w := glPolygonOffset 1 128 w
  -- Part 5: flood the gaps
  let w := glDepthMask false w
  let w := EnableFog true w
  let w := AlphaFunc .GL_GEQUAL 0 w
  let w := BlendFunc .GL_ONE .GL_ZERO w
  let w := callExt env .DrawUnhandledMissingTextures w
  let w := glDepthMask true w
  let w := glPolygonOffset 0 0 w
  glDisable .GL_POLYGON_OFFSET_FILL w

/-- `GLSceneDrawer::RenderTranslucent`.  The profiling clock is left out. -/
def RenderTranslucent (env : Env) (cfg : Config) (w : World) : World :=
  let w := SetCameraPos w
  let w := AlphaFunc .GL_GEQUAL cfg.gl_mask_sprite_threshold w
  let w := BlendFunc .GL_SRC_ALPHA .GL_ONE_MINUS_SRC_ALPHA w
  let w := EnableBrightmap true w
  let w := callExt env (.Draw .GLDL_TRANSLUCENTBORDER .GLPASS_TRANSLUCENT false) w
  let w := glDepthMask false w
  let w := callExt env (.DrawSorted .GLDL_TRANSLUCENT) w
  let w := EnableBrightmap false w
  let w := AlphaFunc .GL_GEQUAL (1/2) w
  glDepthMask true w

/-- The ambient-occlusion prologue of `DrawScene`: from the draw mode
and the static `ssao_portals_available`, the local `applySSAO` and the new
value of the static. -/
def ssaoBudget (gl_ssao_portals : Int) (drawmode : EDrawMode) (available : Int) : Bool × Int :=
  if drawmode = .DM_MAINVIEW then (true, gl_ssao_portals)
  else if drawmode = .DM_OFFSCREEN then (false, 0)
  else if drawmode = .DM_PORTAL ∧ available > 0 then (true, available - 1)
  else (false, available)

/-- The block of `DrawScene` guarded by
`applySSAO && gl_RenderState.GetPassType() == GBUFFER_PASS`. -/
def ambientOcclusionStep (env : Env) (applySSAO : Bool) (w : World) : World :=
  if applySSAO && w.gl.passType == .GBUFFER_PASS then
    let w := EnableDrawBuffers (.literal 1) w
    let w := callExt env .AmbientOccludeScene w
    let w := callExt env (.BindSceneFB true) w
    let w := EnableDrawBuffers .passDrawBufferCount w
    let w := Apply w
    ApplyMatrices w
  else w

mutual
/-- `GLSceneDrawer::DrawScene`.  Both branches of the `vp.camera != nullptr`
test call `CreateScene`; the saved and restored `renderflags` of the camera
actor are not part of the modelled state. -/
def DrawScene (env : Env) (cfg : Config) : Scene → EDrawMode → World → World
  | .mk di portals, drawmode, w =>
    let budget := ssaoBudget cfg.gl_ssao_portals drawmode w.ssao_portals_available
    let applySSAO := budget.1
    let w := { w with ssao_portals_available := budget.2 }
    let w := callExt env .CreateScene w
    let w := RenderScene env cfg di w.recursion (w.emit (.RenderScene w.recursion) id)
    let w :=
      if cfg.RenderPlayerSpritesInScene then
        callExt env (.DrawPlayerSprites cfg.hudModelAvailable) w
      else w
    let w := ambientOcclusionStep env applySSAO w
    let w := { w with recursion := w.recursion + 1 }
    let w := EndFrame env cfg portals w
    let w := { w with recursion := w.recursion - 1 }
    RenderTranslucent env cfg (w.emit .RenderTranslucent id)
/-- Modelled from the spec: `GLPortal::EndFrame`, whose body is not among
the translated sources.  It "triggers one nested `drawScene` call per
visible, unprocessed portal collected during scene building, each wrapped
with its own stencil/clip region": for every pending portal, the portal
set-up, a nested `DrawScene` in mode `DM_PORTAL`, the portal tear-down. -/
def EndFrame (env : Env) (cfg : Config) : PortalList → World → World
  | .nil, w => w
  | .cons p rest, w =>
    let w := callExt env .PortalBegin w
    let w := DrawScene env cfg p .DM_PORTAL w
    let w := callExt env .PortalEnd w
    EndFrame env cfg rest w
end


/-- `GLSceneDrawer::Reset3DViewport`: one `glViewport` call with the screen
viewport rectangle; the viewport is not part of `GLState`. -/
def Reset3DViewport (w : World) : World :=
  w.emit .glViewport id

/-- `GLSceneDrawer::EndDrawScene`. -/
def EndDrawScene (env : Env) (cfg : Config) (w : World) : World :=
  let w := EnableFog false w
  let renderHUDModel := cfg.hudModelAvailable
  let w :=
    if renderHUDModel then
      let w := glClearDepth w
      callExt env (.DrawPlayerSprites true) w
    else w
  let w := glDisable .GL_STENCIL_TEST w
  let w := Reset3DViewport w
  let w := BlendFunc .GL_SRC_ALPHA .GL_ONE_MINUS_SRC_ALPHA w
  let w := ResetColor w
  let w := EnableTexture true w
  glDisable .GL_SCISSOR_TEST w

/-- `GLSceneDrawer::DrawEndScene2D`.  The view and projection matrices are not
part of `GLState`; their set-up is traced only. -/
def DrawEndScene2D (env : Env) (cfg : Config) (w : World) : World :=
  let renderHUDModel := cfg.hudModelAvailable
  let w := w.emit .LoadIdentityViewMatrix id
  let w := w.emit .OrthoProjectionMatrix id
  let w := ApplyMatrices w
  let w := glDisable .GL_DEPTH_TEST w
  let w := glDisable .GL_MULTISAMPLE w
  let w :=
    if !cfg.RenderPlayerSpritesInScene then
      if renderHUDModel == false then
        callExt env (.DrawPlayerSprites false) w
      else w
    else w
  let w := SetSoftLightLevel (-1) w
  let w := BlendFunc .GL_SRC_ALPHA .GL_ONE_MINUS_SRC_ALPHA w
  let w := ResetColor w
  let w := EnableTexture true w
  glDisable .GL_SCISSOR_TEST w

/-- `GLSceneDrawer::ProcessScene`.  The dynamic-light counters, the map
section set and `mCurrentPortal` it resets are not part of the modelled state. -/
def ProcessScene (env : Env) (cfg : Config) (scene : Scene) (toscreen : Bool)
    (w : World) : World :=
  let w := callExt env .BeginScene w
  DrawScene env cfg scene (if toscreen then .DM_MAINVIEW else .DM_OFFSCREEN) w

/-- A run of the renderer: one `ProcessScene` per entry (scene and `toscreen`
flag), in order. -/
def processScenes (env : Env) (cfg : Config) : List (Scene × Bool) → World → World
  | [], w => w
  | (scene, toscreen) :: rest, w =>
    processScenes env cfg rest (ProcessScene env cfg scene toscreen w)

/-! ## Model draw adapter (`gl_models.cpp`) -/

/-- `FRenderStyle`, compared through its `AsDWORD` view. -/
structure FRenderStyle where
  AsDWORD : Nat
  deriving DecidableEq, Repr

/-- The fields of `AActor` that the model draw adapter reads. -/
structure AActor where
  RenderStyle : FRenderStyle
  deriving DecidableEq, Repr

/-- The fields of `FSpriteModelFrame` that `BeginDrawModel` / `EndDrawModel` read. -/
structure FSpriteModelFrame where
  flags : Nat
  deriving DecidableEq, Repr

/-- Constants declared outside the translated sources: the table entry
`LegacyRenderStyles[STYLE_Normal]` and the flag bit `MDL_DONTCULLBACKFACES`. -/
structure ModelConsts where
  STYLE_Normal : FRenderStyle
  MDL_DONTCULLBACKFACES : Nat
  deriving DecidableEq, Repr

/-- The condition `!(actor->RenderStyle == LegacyRenderStyles[STYLE_Normal]) &&
!(smf->flags & MDL_DONTCULLBACKFACES)` of `BeginDrawModel` and `EndDrawModel`. -/
def cullCondition (k : ModelConsts) (actor : AActor) (smf : FSpriteModelFrame) : Bool :=
  !(actor.RenderStyle == k.STYLE_Normal) && !((smf.flags &&& k.MDL_DONTCULLBACKFACES) != 0)

/-- `FGLModelRenderer::BeginDrawModel`; `portalMirrored` is
`screen->mPortalState->isMirrored()`. -/
def BeginDrawModel (k : ModelConsts) (portalMirrored : Bool) (actor : AActor)
    (smf : FSpriteModelFrame) (objectToWorldMatrix : VSMatrix) (mirrored : Bool)
    (w : World) : World :=
  let w := glDepthFunc .GL_LEQUAL w
  let w := EnableTexture true w
  let w :=
    if cullCondition k actor smf then
      let w := glEnable .GL_CULL_FACE w
      glFrontFace (if xor mirrored portalMirrored then .GL_CCW else .GL_CW) w
    else w
  let w := SetModelMatrix objectToWorldMatrix w
  EnableModelMatrix true w

/-- `FGLModelRenderer::EndDrawModel`. -/
def EndDrawModel (k : ModelConsts) (actor : AActor) (smf : FSpriteModelFrame)
    (w : World) : World :=
  let w := EnableModelMatrix false w
  let w := glDepthFunc .GL_LESS w
  if cullCondition k actor smf then glDisable .GL_CULL_FACE w else w

/-- `FGLModelRenderer::BeginDrawHUDModel`. -/
def BeginDrawHUDModel (k : ModelConsts) (portalMirrored : Bool) (actor : AActor)
    (objectToWorldMatrix : VSMatrix) (mirrored : Bool) (w : World) : World :=
  let w := glDepthFunc .GL_LEQUAL w
  let w :=
    if !(actor.RenderStyle == k.STYLE_Normal) then
      let w := glEnable .GL_CULL_FACE w
      glFrontFace (if xor mirrored portalMirrored then .GL_CW else .GL_CCW) w
    else w
  let w := SetModelMatrix objectToWorldMatrix w
  EnableModelMatrix true w

/-- `FGLModelRenderer::EndDrawHUDModel`. -/
def EndDrawHUDModel (k : ModelConsts) (actor : AActor) (w : World) : World :=
  let w := EnableModelMatrix false w
  let w := glDepthFunc .GL_LESS w
  if !(actor.RenderStyle == k.STYLE_Normal) then glDisable .GL_CULL_FACE w else w

/-! ## HUD model transform (`FGLModelRenderer::PrepareRenderHUDModel`) -/

/-- `VSMatrix::scale`: multiply a scaling onto the matrix; the arguments are
the expressions of the call. -/
def VSMatrix.scale (m : VSMatrix) (x y z : CExpr) : VSMatrix :=
  ⟨m.factors ++ [.scaleExpr x y z]⟩

/-- `VSMatrix::translate`: multiply a translation onto the matrix; the arguments
are the expressions of the call. -/
def VSMatrix.translate (m : VSMatrix) (x y z : CExpr) : VSMatrix :=
  ⟨m.factors ++ [.translateExpr x y z]⟩

/-- `VSMatrix::rotate`: multiply a rotation by `angle` about `(x, y, z)` onto the
matrix; the arguments are the expressions of the call. -/
def VSMatrix.rotate (m : VSMatrix) (angle x y z : CExpr) : VSMatrix :=
  ⟨m.factors ++ [.rotateExpr angle x y z]⟩

/-- The float literal `0.01f`: the `float` nearest to 0.01. -/
def float_0_01 : CExpr := .floatLit (5368709/536870912)

/-- The matrix `VSMatrix::loadIdentity` leaves. -/
def VSMatrix.identity : VSMatrix := ⟨[]⟩

/-- `DVector3`. -/
structure DVector3 where
  X : ℚ
  Y : ℚ
  Z : ℚ
  deriving DecidableEq, Repr

/-- What `PrepareRenderHUDModel` reads of the player actor `playermo`. -/
structure PlayerPose where
  /-- Value of `playermo->InterpolatedPosition(r_viewpoint.TicFrac)`. -/
  InterpolatedPosition : DVector3
  /-- Value of `playermo->Angles.Yaw.Degrees`. -/
  Yaw : ℚ
  deriving DecidableEq, Repr

/-- The fields of `FSpriteModelFrame` that `PrepareRenderHUDModel` reads. -/
structure FSpriteModelFramePlacement where
  xscale : ℚ
  yscale : ℚ
  zscale : ℚ
  xoffset : ℚ
  yoffset : ℚ
  zoffset : ℚ
  angleoffset : ℚ
  pitchoffset : ℚ
  rolloffset : ℚ
  deriving DecidableEq, Repr

/-- What `PrepareRenderHUDModel` uses of `VRMode::GetVRMode(true)`: the eye count
and `GetWeaponTransform`, which gets the model matrix by pointer and returns
whether it supplied a transform together with the matrix it leaves. -/
structure VRMode where
  mEyeCount : Int
  GetWeaponTransform : VSMatrix → Bool × VSMatrix

/-- Values declared outside the translated sources that `PrepareRenderHUDModel`
reads: the console variables `gl_weaponOfsY`, `gl_weaponOfsZ` and the constant
`WEAPONTOP`. -/
structure HUDModelConsts where
  gl_weaponOfsY : ℚ
  gl_weaponOfsZ : ℚ
  WEAPONTOP : ℚ
  deriving DecidableEq, Repr

/-- The state `PrepareRenderHUDModel` works on: the pipeline state and
`di->VPUniforms.mNormalViewMatrix`. -/
structure ModelRendererState where
  world : World
  mNormalViewMatrix : VSMatrix
  deriving DecidableEq, Repr

/-- The generic `FModelRenderer::PrepareRenderHUDModel`, whose body is outside the
translated sources: from its arguments (the last one being the incoming value
of the reference parameter) the matrix it leaves in `objectToWorldMatrix`. -/
abbrev GenericPrepareRenderHUDModel :=
  PlayerPose → FSpriteModelFramePlacement → ℚ → ℚ → VSMatrix → VSMatrix

/-- An update in place of `gl_RenderState.mModelMatrix`. -/
def updateModelMatrix (f : VSMatrix → VSMatrix) (w : World) : World :=
  SetModelMatrix (f w.gl.mModelMatrix) w

/-- `FGLModelRenderer::PrepareRenderHUDModel`: the state it leaves and the matrix
it leaves in `objectToWorldMatrix`. -/
def PrepareRenderHUDModel (cfg : Config) (k : HUDModelConsts) (vrmode : VRMode)
    (generic : GenericPrepareRenderHUDModel) (playermo : PlayerPose)
    (smf : FSpriteModelFramePlacement) (ofsX ofsY : ℚ) (objectToWorldMatrix : VSMatrix)
    (st : ModelRendererState) : ModelRendererState × VSMatrix :=
  if vrmode.mEyeCount > 1 then
    let w := AlphaFunc .GL_GEQUAL cfg.gl_mask_sprite_threshold st.world
    let w := updateModelMatrix (fun _ => VSMatrix.identity) w
    let w := w.emit (.SetNormalViewMatrix VSMatrix.identity) id
    let normal := VSMatrix.identity
    let supplied := vrmode.GetWeaponTransform w.gl.mModelMatrix
    let w := updateModelMatrix (fun _ => supplied.2) w
    let w :=
      if supplied.1 then
        let scale := float_0_01
        let w := updateModelMatrix (fun m => m.scale scale scale scale) w
        updateModelMatrix
          (fun m => m.translate (.intLit 0) (.add (.intLit 5) (.input k.gl_weaponOfsZ))
            (.add (.intLit 30) (.input k.gl_weaponOfsY))) w
      else
        let pos := playermo.InterpolatedPosition
        let w := updateModelMatrix
          (fun m => m.translate (.input pos.X) (.add (.input pos.Z) (.intLit 40))
            (.input pos.Y)) w
        updateModelMatrix
          (fun m => m.rotate (.sub (.neg (.input playermo.Yaw)) (.intLit 90))
            (.intLit 0) (.intLit 1) (.intLit 0)) w
    let w := updateModelMatrix
      (fun m => m.scale (.input smf.xscale) (.input smf.zscale) (.input smf.yscale)) w
    let w := updateModelMatrix
      (fun m => m.translate (.div (.input smf.xoffset) (.input smf.xscale))
        (.div (.input smf.zoffset) (.input smf.zscale))
        (.div (.input smf.yoffset) (.input smf.yscale))) w
    let w := updateModelMatrix
      (fun m => m.rotate (.div (.input ofsX) (.intLit 4)) (.intLit 0) (.intLit 1) (.intLit 0)) w
    let w := updateModelMatrix
      (fun m => m.rotate (.div (.sub (.input ofsY) (.input k.WEAPONTOP)) (.neg (.doubleLit 4)))
        (.intLit 1) (.intLit 0) (.intLit 0)) w
    let w := updateModelMatrix
      (fun m => m.rotate (.floatLit 90) (.intLit 0) (.intLit 1) (.intLit 0)) w
    let w := updateModelMatrix
      (fun m => m.rotate (.neg (.input smf.angleoffset)) (.intLit 0) (.intLit 1) (.intLit 0)) w
    let w := updateModelMatrix
      (fun m => m.rotate (.input smf.pitchoffset) (.intLit 0) (.intLit 0) (.intLit 1)) w
    let w := updateModelMatrix
      (fun m => m.rotate (.neg (.input smf.rolloffset)) (.intLit 1) (.intLit 0) (.intLit 0)) w
    let w := EnableModelMatrix true w
    let w := EnableModelMatrix false w
    (⟨w, normal⟩, w.gl.mModelMatrix)
  else
    (st, generic playermo smf ofsX ofsY objectToWorldMatrix)

/-- The mono path in the words of the spec, "default path delegates to a
generic model-transform routine": the matrix is the one the generic routine
computes and the state is left alone. -/
def monoPrepareRenderHUDModel (generic : GenericPrepareRenderHUDModel)
    (playermo : PlayerPose) (smf : FSpriteModelFramePlacement) (ofsX ofsY : ℚ)
    (objectToWorldMatrix : VSMatrix) (st : ModelRendererState) :
    ModelRendererState × VSMatrix :=
  (st, generic playermo smf ofsX ofsY objectToWorldMatrix)

/-! ## Model vertex buffer (`FModelVertexBuffer`, `gl_models.cpp`) -/

/-- `FModelVertex`: position, texture coordinate and packed normal. -/
structure FModelVertex where
  x : ℚ
  y : ℚ
  z : ℚ
  u : ℚ
  v : ℚ
  packedNormal : Nat
  deriving DecidableEq, Repr

/-- A vertex whose bytes are all zero, as `memset(vbo_ptr, 0, ...)` leaves it. -/
def FModelVertex.zero : FModelVertex := ⟨0, 0, 0, 0, 0, 0⟩

/-- Buffer binding targets. -/
inductive BufferTarget
  | GL_ARRAY_BUFFER | GL_ELEMENT_ARRAY_BUFFER
  deriving DecidableEq, Repr

/-- The element type whose `sizeof` scales a buffer size. -/
inductive BufferElem
  | FModelVertex | unsignedInt
  deriving DecidableEq, Repr

/-- The graphics calls of `FModelVertexBuffer`.  A byte size
`count * sizeof(elem)` is kept as `count` and `elem`. -/
inductive BufferCall
  | glGenBuffers (n : Nat)
  | glBindBuffer (target : BufferTarget) (buffer : Nat)
  | glBufferData (target : BufferTarget) (count : Nat) (elem : BufferElem)
  | glMapBufferRange (target : BufferTarget) (count : Nat) (elem : BufferElem)
  | glUnmapBuffer (target : BufferTarget)
  | glDeleteBuffers (buffer : Nat)
  deriving DecidableEq, Repr

/-- What the graphics API answers: the buffer name `glGenBuffers` writes and
the pointer `glMapBufferRange` returns for a target (0 is the null pointer). -/
structure GLDriver where
  glGenBuffers : Nat
  glMapBufferRange : BufferTarget → Nat

/-- The members of `FModelVertexBuffer` (`vbo_id` is inherited from
`FVertexBuffer`) and the graphics calls issued on its behalf.  `vbo_ptr` is
`none` for `nullptr`, else the heap array it owns. -/
structure FModelVertexBuffer where
  vbo_id : Nat
  ibo_id : Nat
  vbo_ptr : Option (List FModelVertex)
  calls : List BufferCall
  deriving DecidableEq, Repr

/-- A `FModelVertex *` as returned by `LockVertexBuffer`: an address obtained
from the graphics API, or the heap array owned by `vbo_ptr`. -/
inductive VertexPointer
  | address (p : Nat)
  | heap (storage : List FModelVertex)
  deriving DecidableEq, Repr

/-- `FModelVertexBuffer::FModelVertexBuffer(needindex, singleframe)`.  The base
constructor `FVertexBuffer(true)` is outside the translated sources; `vbo_id`
is the buffer name it leaves. -/
def FModelVertexBuffer.new (gl : GLDriver) (vbo_id : Nat) (needindex : Bool)
    (_singleframe : Bool) : FModelVertexBuffer :=
  let b : FModelVertexBuffer := ⟨vbo_id, 0, none, []⟩
  if needindex then
    { b with ibo_id := gl.glGenBuffers, calls := b.calls ++ [.glGenBuffers 1] }
  else b

/-- `FModelVertexBuffer::LockVertexBuffer`. -/
def LockVertexBuffer (gl : GLDriver) (size : Nat) (b : FModelVertexBuffer) :
    VertexPointer × FModelVertexBuffer :=
  if b.vbo_id > 0 then
    (.address (gl.glMapBufferRange .GL_ARRAY_BUFFER),
      { b with calls := b.calls ++
          [.glBindBuffer .GL_ARRAY_BUFFER b.vbo_id,
           .glBufferData .GL_ARRAY_BUFFER size .FModelVertex,
           .glMapBufferRange .GL_ARRAY_BUFFER size .FModelVertex] })
  else
    let storage := List.replicate size FModelVertex.zero
    (.heap storage, { b with vbo_ptr := some storage })

/-- `FModelVertexBuffer::UnlockVertexBuffer`. -/
def UnlockVertexBuffer (b : FModelVertexBuffer) : FModelVertexBuffer :=
  if b.vbo_id > 0 then
    { b with calls := b.calls ++
        [.glBindBuffer .GL_ARRAY_BUFFER b.vbo_id, .glUnmapBuffer .GL_ARRAY_BUFFER] }
  else b

/-- `FModelVertexBuffer::LockIndexBuffer`; the result is the `unsigned int *`
returned, 0 for `nullptr`. -/
def LockIndexBuffer (gl : GLDriver) (size : Nat) (b : FModelVertexBuffer) :
    Nat × FModelVertexBuffer :=
  if b.ibo_id != 0 then
    (gl.glMapBufferRange .GL_ELEMENT_ARRAY_BUFFER,
      { b with calls := b.calls ++
          [.glBindBuffer .GL_ELEMENT_ARRAY_BUFFER b.ibo_id,
           .glBufferData .GL_ELEMENT_ARRAY_BUFFER size .unsignedInt,
           .glMapBufferRange .GL_ELEMENT_ARRAY_BUFFER size .unsignedInt] })
  else (0, b)

/-- `FModelVertexBuffer::UnlockIndexBuffer`. -/
def UnlockIndexBuffer (b : FModelVertexBuffer) : FModelVertexBuffer :=
  if b.ibo_id > 0 then
    { b with calls := b.calls ++
        [.glBindBuffer .GL_ELEMENT_ARRAY_BUFFER b.ibo_id,
         .glUnmapBuffer .GL_ELEMENT_ARRAY_BUFFER] }
  else b

/-! ## Save picture read-back (`GLSceneDrawer::WriteSavePic`) -/

/-- The value of an `int` expression: 32-bit two's complement wrap-around. -/
def wrapInt32 (x : Int) : Int :=
  (x + 2147483648) % 4294967296 - 2147483648

/-- The arguments `WriteSavePic` hands to `M_Malloc`, `glReadPixels` and
`M_CreatePNG`; offsets are in bytes from the start of the buffer `scr`. -/
structure SavePicReadback where
  /-- Argument of `M_Malloc`. -/
  mallocSize : Int
  /-- Width and height given to `glReadPixels(0, 0, width, height, GL_RGB, ...)`. -/
  readWidth : Int
  readHeight : Int
  /-- Offset of the buffer argument of `M_CreatePNG` from `scr`. -/
  pngStart : Int
  pngWidth : Int
  pngHeight : Int
  /-- The pitch argument of `M_CreatePNG`. -/
  pngPitch : Int
  deriving DecidableEq, Repr

/-- The read-back part of `GLSceneDrawer::WriteSavePic` (the lines from
`M_Malloc` to `M_Free`); the rendering before it does not change `width` and
`height`.  All arithmetic is `int` arithmetic. -/
def WriteSavePic (width height : Int) : SavePicReadback where
  mallocSize := wrapInt32 (wrapInt32 (width * height) * 3)
  readWidth := width
  readHeight := height
  pngStart := wrapInt32 (wrapInt32 (wrapInt32 (height - 1) * width) * 3)
  pngWidth := width
  pngHeight := height
  pngPitch := wrapInt32 (wrapInt32 (-width) * 3)

/-- Modelled from the spec: the pixel layout of the read-back, "row-major RGB,
3 bytes per pixel" (`glReadPixels` itself is outside the translated sources):
the byte offset in the buffer at which read-back row `row` starts. -/
def readbackRowOffset (width row : Int) : Int :=
  row * (width * 3)

/-- Modelled from the spec: the image encoder `M_CreatePNG` is outside the
translated sources; it takes row `i` of the image from `buffer + i * pitch`
and reads `width * 3` bytes there.  The byte offset from `scr` at which the
encoder reads its row `i`. -/
def encoderRowOffset (r : SavePicReadback) (i : Int) : Int :=
  r.pngStart + i * r.pngPitch

/-! ## Observing a run -/

/-- The calls issued so far, oldest first. -/
def World.calls (w : World) : List Call :=
  w.trace.map Event.call

/-- The calls issued between world `w0` and a later world `w1`. -/
def callsBetween (w0 w1 : World) : List Call :=
  w1.calls.drop w0.calls.length

/-- The trace entries appended between world `w0` and a later world `w1`. -/
def eventsBetween (w0 w1 : World) : List Event :=
  w1.trace.drop w0.trace.length

/-- The calls to external routines among `calls`, in order. -/
def externalCalls (calls : List Call) : List ExtCall :=
  calls.filterMap fun c =>
    match c with
    | .external e => some e
    | _ => none

/-- Whether an external call renders visible geometry: a draw-list draw in
a pass other than the lights-only pass, the decals, or the gap fill. -/
def ExtCall.isVisibleDraw : ExtCall → Bool
  | .DrawWalls _ pass => pass != .GLPASS_LIGHTSONLY
  | .DrawFlats _ pass => pass != .GLPASS_LIGHTSONLY
  | .Draw _ pass _ => pass != .GLPASS_LIGHTSONLY
  | .DrawSorted _ => true
  | .DrawDecals => true
  | .DrawUnhandledMissingTextures => true
  | _ => false

/-- The draw list an external call works on, if any. -/
def ExtCall.drawList : ExtCall → Option GLDrawListType
  | .SortWalls l => some l
  | .SortFlats l => some l
  | .DrawWalls l _ => some l
  | .DrawFlats l _ => some l
  | .Draw l _ _ => some l
  | .DrawSorted l => some l
  | _ => none

/-- The visible draws among `calls`, in order. -/
def visibleDraws (calls : List Call) : List ExtCall :=
  (externalCalls calls).filter ExtCall.isVisibleDraw

/-- The external calls among `events`, each with the depth mask it was
issued under. -/
def externalWithDepthMask (events : List Event) : List (ExtCall × Bool) :=
  events.filterMap fun ev =>
    match ev.call with
    | .external e => some (e, ev.pre.depthMask)
    | _ => none

/-- The `recursion` arguments of the `RenderScene` calls among `calls`, in order. -/
def renderSceneArgs (calls : List Call) : List Int :=
  calls.filterMap fun c =>
    match c with
    | .RenderScene r => some r
    | _ => none

/-- The arguments of the `DrawPlayerSprites` calls among `calls`, in order. -/
def drawPlayerSpritesArgs (calls : List Call) : List Bool :=
  calls.filterMap fun c =>
    match c with
    | .external (.DrawPlayerSprites b) => some b
    | _ => none

mutual
/-- For a scene whose `DrawScene` invocation has `depth` enclosing `DrawScene`
invocations: the numbers of enclosing invocations of all `DrawScene`
invocations it gives rise to, in the order in which they call `RenderScene`. -/
def Scene.nesting : Scene → Int → List Int
  | .mk _ portals, depth => depth :: portals.nesting (depth + 1)
/-- The same for the pending portals of a scene. -/
def PortalList.nesting : PortalList → Int → List Int
  | .nil, _ => []
  | .cons p rest, depth => p.nesting depth ++ rest.nesting depth
end

/-- The polygon-offset state (fill enabled, factor, units) under which each
occurrence of call `c` among `events` was issued. -/
def polygonOffsetAt (c : Call) (events : List Event) : List (Bool × ℚ × ℚ) :=
  events.filterMap fun ev =>
    if ev.call = c then
      some (ev.pre.polygonOffsetFill, ev.pre.polygonOffsetFactor, ev.pre.polygonOffsetUnits)
    else none

/-- The calls strictly between the first occurrence of `a` among `calls` and the
next occurrence of `b` after it. -/
def segmentBetween (a b : Call) (calls : List Call) : List Call :=
  ((calls.dropWhile fun c => c != a).drop 1).takeWhile fun c => c != b

/-- The static `ssao_portals_available` after a sequence of `DrawScene`
invocations given by their draw modes, in the order in which they start. -/
def budgetAfter (gl_ssao_portals : Int) (available : Int) : List EDrawMode → Int
  | [] => available
  | m :: rest => budgetAfter gl_ssao_portals (ssaoBudget gl_ssao_portals m available).2 rest

/-- An environment leaves depth function, blend function and texture
enable as it found them. -/
def PreservesDefaults (env : Env) : Prop :=
  ∀ e n s, (env e n s).depthFunc = s.depthFunc ∧ (env e n s).srcBlend = s.srcBlend ∧
    (env e n s).dstBlend = s.dstBlend ∧ (env e n s).textureEnabled = s.textureEnabled

/-! ## Concrete inputs -/

/-- A sample pipeline state: depth writes on, depth function `GL_LESS`, culling,
texturing and polygon offset off, blend function (`GL_ONE`, `GL_ZERO`). -/
def GLState.startup : GLState where
  depthMask := true
  depthFunc := .GL_LESS
  polygonOffsetFill := false
  polygonOffsetFactor := 0
  polygonOffsetUnits := 0
  cullFace := false
  frontFace := .GL_CCW
  stencilTest := false
  scissorTest := false
  depthTest := false
  multisample := false
  fog := false
  srcBlend := .GL_ONE
  dstBlend := .GL_ZERO
  alphaFunc := .GL_ALWAYS
  alphaThreshold := 0
  textureEnabled := false
  brightmap := false
  textureMode := .TM_MODULATE
  passType := .NORMAL_PASS
  mModelMatrix := ⟨[]⟩
  modelMatrixEnabled := false

/-- The world at program start: both statics of `DrawScene` are 0, nothing traced. -/
def World.startup : World := ⟨GLState.startup, 0, 0, []⟩

/-- Sample constants: render style word 0 for `STYLE_Normal`, bit 64 for the flag. -/
def sampleConsts : ModelConsts := ⟨⟨0⟩, 64⟩

/-- An actor drawn with `STYLE_Normal` under `sampleConsts`. -/
def normalActor : AActor := ⟨⟨0⟩⟩

/-- An actor drawn with a render style other than `STYLE_Normal` under `sampleConsts`. -/
def translucentActor : AActor := ⟨⟨1⟩⟩

/-- A sample object-to-world transform. -/
def sampleMatrix : VSMatrix := ⟨[.translate 1 2 3, .scale 2 2 2]⟩

/-- An environment in which no external routine touches the pipeline state. -/
def inertEnv : Env := fun _ _ s => s

/-- Sample configuration: all console variables at their declared defaults,
one ambient-occlusion portal, forward lighting, mono rendering. -/
def sampleConfig : Config where
  gl_texture := true
  gl_no_skyclear := false
  gl_mask_threshold := 1/2
  gl_mask_sprite_threshold := 1/2
  gl_sort_textures := false
  gl_ssao_portals := 1
  lightmethodDeferred := false
  HasDynamicLights := false
  RenderPlayerSpritesInScene := false
  hudModelAvailable := false

/-- A draw info with all draw lists empty. -/
def emptyDrawInfo : FDrawInfo := ⟨fun _ => 0, false⟩

/-- A draw info with one item in every draw list. -/
def oneWallDrawInfo : FDrawInfo := ⟨fun _ => 1, false⟩

/-- A scene with empty draw lists and no portals. -/
def emptyScene : Scene := .mk emptyDrawInfo .nil

/-- A scene with one wall in every wall list and two portals, the first of
which shows a further portal. -/
def nestedScene : Scene :=
  .mk ⟨fun _ => 1, false⟩
    (.cons (.mk emptyDrawInfo (.cons emptyScene .nil)) (.cons emptyScene .nil))

/-- A working graphics API: `glGenBuffers` hands out name 1 and
`glMapBufferRange` returns address 4096. -/
def sampleDriver : GLDriver := ⟨1, fun _ => 4096⟩

/-- A fallback buffer (`vbo_id = 0`) holding two vertices from an earlier lock. -/
def usedFallbackBuffer : FModelVertexBuffer :=
  ⟨0, 0, some [⟨1, 2, 3, 0, 1, 7⟩, ⟨4, 5, 6, 1, 0, 9⟩], []⟩

/-- A two-eye VR mode that supplies the weapon transform with handle 7. -/
def sampleVRMode : VRMode := ⟨2, fun _ => (true, ⟨[.multMatrix 7]⟩)⟩

/-- A two-eye VR mode that supplies no weapon transform and leaves the matrix alone. -/
def plainStereoMode : VRMode := ⟨2, fun m => (false, m)⟩

/-- The mono mode: one eye, no weapon transform. -/
def monoMode : VRMode := ⟨1, fun m => (false, m)⟩

/-- Sample values: no weapon offsets, `WEAPONTOP` = 32. -/
def sampleHUDConsts : HUDModelConsts := ⟨0, 0, 32⟩

/-- A player at (10, 20, 30) looking along yaw 90. -/
def samplePlayer : PlayerPose := ⟨⟨10, 20, 30⟩, 90⟩

/-- A model frame with unit scale and no offsets. -/
def samplePlacement : FSpriteModelFramePlacement := ⟨1, 1, 1, 0, 0, 0, 0, 0, 0⟩

/-- A generic transform routine that multiplies one factor onto its matrix. -/
def sampleGeneric : GenericPrepareRenderHUDModel :=
  fun _ _ _ _ m => ⟨m.factors ++ [.multMatrix 1]⟩

/-- The renderer state at program start. -/
def ModelRendererState.startup : ModelRendererState := ⟨World.startup, ⟨[]⟩⟩

/-! ## Basic facts about the trace and the state -/

section Basics

@[simp]
theorem World.calls_emit (c : Call) (f : GLState → GLState) (w : World) :
    (w.emit c f).calls = w.calls ++ [c] := by
  simp [World.emit, World.calls]

@[simp]
theorem World.trace_emit (c : Call) (f : GLState → GLState) (w : World) :
    (w.emit c f).trace = w.trace ++ [⟨c, w.gl⟩] := rfl

@[simp]
theorem World.gl_emit (c : Call) (f : GLState → GLState) (w : World) :
    (w.emit c f).gl = f w.gl := rfl

@[simp]
theorem World.recursion_emit (c : Call) (f : GLState → GLState) (w : World) :
    (w.emit c f).recursion = w.recursion := rfl

@[simp]
theorem World.budget_emit (c : Call) (f : GLState → GLState) (w : World) :
    (w.emit c f).ssao_portals_available = w.ssao_portals_available := rfl

@[simp]
theorem World.calls_mk (g : GLState) (r a : Int) (t : List Event) :
    (World.mk g r a t).calls = t.map Event.call := rfl

theorem callsBetween_of_append (w0 w1 : World) (l : List Call)
    (h : w1.calls = w0.calls ++ l) : callsBetween w0 w1 = l := by
  simp [callsBetween, h]

theorem cullCondition_iff (k : ModelConsts) (actor : AActor) (smf : FSpriteModelFrame) :
    cullCondition k actor smf = true ↔
      actor.RenderStyle ≠ k.STYLE_Normal ∧ smf.flags &&& k.MDL_DONTCULLBACKFACES = 0 := by
  simp [cullCondition]

/-- The calls of `BeginDrawModel`, by the culling condition. -/
theorem BeginDrawModel_calls (k : ModelConsts) (portalMirrored : Bool)
    (actor : AActor) (smf : FSpriteModelFrame) (m : VSMatrix) (mirrored : Bool) (w : World) :
    callsBetween w (BeginDrawModel k portalMirrored actor smf m mirrored w) =
      [.glDepthFunc .GL_LEQUAL, .EnableTexture true] ++
      (if cullCondition k actor smf then
        [.glEnable .GL_CULL_FACE,
         .glFrontFace (if xor mirrored portalMirrored then .GL_CCW else .GL_CW)]
       else []) ++
      [.SetModelMatrix m, .EnableModelMatrix true] := by
  apply callsBetween_of_append
  by_cases h : cullCondition k actor smf = true <;>
    simp [BeginDrawModel, h, glDepthFunc, EnableTexture, glEnable, glFrontFace, SetModelMatrix,
      EnableModelMatrix]

/-- The calls of `BeginDrawHUDModel`, by the render style. -/
theorem BeginDrawHUDModel_calls (k : ModelConsts) (portalMirrored : Bool)
    (actor : AActor) (m : VSMatrix) (mirrored : Bool) (w : World) :
    callsBetween w (BeginDrawHUDModel k portalMirrored actor m mirrored w) =
      [.glDepthFunc .GL_LEQUAL] ++
      (if actor.RenderStyle = k.STYLE_Normal then []
       else
        [.glEnable .GL_CULL_FACE,
         .glFrontFace (if xor mirrored portalMirrored then .GL_CW else .GL_CCW)]) ++
      [.SetModelMatrix m, .EnableModelMatrix true] := by
  apply callsBetween_of_append
  by_cases h : actor.RenderStyle = k.STYLE_Normal <;>
    simp [BeginDrawHUDModel, h, glDepthFunc, glEnable, glFrontFace, SetModelMatrix,
      EnableModelMatrix]

end Basics

/-! ## The calls of the scene drawer -/

section SceneCalls

/-- The calls of `RenderTranslucent`. -/
theorem RenderTranslucent_calls (env : Env) (cfg : Config) (w : World) :
    callsBetween w (RenderTranslucent env cfg w) =
      [.SetCameraPos, .AlphaFunc .GL_GEQUAL cfg.gl_mask_sprite_threshold,
       .BlendFunc .GL_SRC_ALPHA .GL_ONE_MINUS_SRC_ALPHA, .EnableBrightmap true,
       .external (.Draw .GLDL_TRANSLUCENTBORDER .GLPASS_TRANSLUCENT false),
       .glDepthMask false, .external (.DrawSorted .GLDL_TRANSLUCENT),
       .EnableBrightmap false, .AlphaFunc .GL_GEQUAL (1/2), .glDepthMask true] := by
  apply callsBetween_of_append
  simp [RenderTranslucent, SetCameraPos, AlphaFunc, BlendFunc, EnableBrightmap, callExt,
    glDepthMask]

theorem World.calls_ite (c : Prop) [Decidable c] (a b : World) :
    (if c then a else b).calls = if c then a.calls else b.calls := by
  split <;> rfl

theorem ite_append_same (c : Prop) [Decidable c] (x l : List Call) :
    (if c then x ++ l else x) = x ++ (if c then l else []) := by
  split <;> simp

theorem ite_append_same_neg (c : Bool) (x l : List Call) :
    (if c = false then x ++ l else x) = x ++ (if c = true then [] else l) := by
  cases c <;> simp

/-- The calls of `RenderScene`. -/
theorem RenderScene_calls (env : Env) (cfg : Config) (di : FDrawInfo) (recursion : Int)
    (w : World) :
    callsBetween w (RenderScene env cfg di recursion w) =
      [.glDepthMask true] ++
      (if cfg.gl_no_skyclear then [] else [.external (.RenderFirstSkyPortal recursion)]) ++
      [.SetCameraPos, .EnableFog true, .BlendFunc .GL_ONE .GL_ZERO] ++
      (if cfg.gl_sort_textures then
        [.external (.SortWalls .GLDL_PLAINWALLS), .external (.SortFlats .GLDL_PLAINFLATS),
         .external (.SortWalls .GLDL_MASKEDWALLS), .external (.SortFlats .GLDL_MASKEDFLATS),
         .external (.SortWalls .GLDL_MASKEDWALLSOFS)]
       else []) ++
      (if cfg.lightmethodDeferred && cfg.HasDynamicLights && !di.isFullbrightScene then
        [.external .LightsBegin,
         .external (.DrawFlats .GLDL_PLAINFLATS .GLPASS_LIGHTSONLY),
         .external (.DrawFlats .GLDL_MASKEDFLATS .GLPASS_LIGHTSONLY),
         .external (.Draw .GLDL_TRANSLUCENTBORDER .GLPASS_LIGHTSONLY false),
         .external (.Draw .GLDL_TRANSLUCENT .GLPASS_LIGHTSONLY true),
         .external .LightsFinish]
       else []) ++
      [.glDepthFunc .GL_LESS, .AlphaFunc .GL_GEQUAL 0, .glDisable .GL_POLYGON_OFFSET_FILL,
       .EnableTexture cfg.gl_texture, .EnableBrightmap true,
       .external (.DrawWalls .GLDL_PLAINWALLS .GLPASS_ALL),
       .external (.DrawFlats .GLDL_PLAINFLATS .GLPASS_ALL)] ++
      (if cfg.gl_texture then [] else [.EnableTexture true, .SetTextureMode .TM_MASK]) ++
      [.AlphaFunc .GL_GEQUAL cfg.gl_mask_threshold,
       .external (.DrawWalls .GLDL_MASKEDWALLS .GLPASS_ALL),
       .external (.DrawFlats .GLDL_MASKEDFLATS .GLPASS_ALL)] ++
      (if di.drawlistSize .GLDL_MASKEDWALLSOFS > 0 then
        [.glEnable .GL_POLYGON_OFFSET_FILL, .glPolygonOffset (-1) (-128),
         .external (.DrawWalls .GLDL_MASKEDWALLSOFS .GLPASS_ALL),
         .glDisable .GL_POLYGON_OFFSET_FILL, .glPolygonOffset 0 0]
       else []) ++
      [.external (.Draw .GLDL_MODELS .GLPASS_ALL false),
       .BlendFunc .GL_SRC_ALPHA .GL_ONE_MINUS_SRC_ALPHA,
       .glDepthFunc .GL_LEQUAL, .glEnable .GL_POLYGON_OFFSET_FILL,
       .glPolygonOffset (-1) (-128), .glDepthMask false,
       .external .DrawDecals,
       .SetTextureMode .TM_MODULATE, .glDepthMask true, .glPolygonOffset 1 128,
       .glDepthMask false, .EnableFog true, .AlphaFunc .GL_GEQUAL 0,
       .BlendFunc .GL_ONE .GL_ZERO,
       .external .DrawUnhandledMissingTextures,
       .glDepthMask true, .glPolygonOffset 0 0, .glDisable .GL_POLYGON_OFFSET_FILL] := by
  apply callsBetween_of_append
  unfold RenderScene
  simp only [SetCameraPos, AlphaFunc, BlendFunc, EnableBrightmap,
      callExt, glDepthMask, glDepthFunc, glEnable, glDisable, glPolygonOffset, EnableFog,
      EnableTexture, SetTextureMode, World.calls_emit, World.calls_ite, ite_append_same,
      ite_append_same_neg, Bool.not_eq_true',
      List.append_assoc, List.singleton_append, List.cons_append,
      List.nil_append, List.append_nil]
  split_ifs <;> simp_all

end SceneCalls

/-! ## The pipeline state on return from the scene drawer -/

section SceneState

theorem PreservesDefaults.depthFunc {env : Env} (h : PreservesDefaults env) (e : ExtCall)
    (n : Nat) (s : GLState) : (env e n s).depthFunc = s.depthFunc := (h e n s).1

theorem PreservesDefaults.srcBlend {env : Env} (h : PreservesDefaults env) (e : ExtCall)
    (n : Nat) (s : GLState) : (env e n s).srcBlend = s.srcBlend := (h e n s).2.1

theorem PreservesDefaults.dstBlend {env : Env} (h : PreservesDefaults env) (e : ExtCall)
    (n : Nat) (s : GLState) : (env e n s).dstBlend = s.dstBlend := (h e n s).2.2.1

theorem PreservesDefaults.textureEnabled {env : Env} (h : PreservesDefaults env) (e : ExtCall)
    (n : Nat) (s : GLState) : (env e n s).textureEnabled = s.textureEnabled := (h e n s).2.2.2

/-- Under `PreservesDefaults`, `RenderScene` returns with depth function
`GL_LEQUAL`, as set for the decals. -/
theorem RenderScene_depthFunc (env : Env) (h : PreservesDefaults env) (cfg : Config)
    (di : FDrawInfo) (recursion : Int) (w : World) :
    (RenderScene env cfg di recursion w).gl.depthFunc = .GL_LEQUAL := by
  unfold RenderScene
  simp only [SetCameraPos, AlphaFunc, BlendFunc, EnableBrightmap,
    callExt, glDepthMask, glDepthFunc, glEnable, glDisable, glPolygonOffset, EnableFog,
    EnableTexture, SetTextureMode, World.gl_emit, GLState.setCap, h.depthFunc, id]

/-- Under `PreservesDefaults`, `RenderScene` returns with texturing enabled. -/
theorem RenderScene_textureEnabled (env : Env) (h : PreservesDefaults env) (cfg : Config)
    (di : FDrawInfo) (recursion : Int) (w : World) :
    (RenderScene env cfg di recursion w).gl.textureEnabled = true := by
  unfold RenderScene
  cases h4 : cfg.gl_texture <;>
    simp only [SetCameraPos, AlphaFunc, BlendFunc, EnableBrightmap,
      callExt, glDepthMask, glDepthFunc, glEnable, glDisable, glPolygonOffset, EnableFog,
      EnableTexture, SetTextureMode, World.gl_emit, GLState.setCap, h.textureEnabled, id,
      apply_ite World.gl, apply_ite GLState.textureEnabled, ite_self, Bool.not_true,
      Bool.not_false, if_true, if_false, Bool.false_eq_true]

/-- Under `PreservesDefaults`, `RenderTranslucent` keeps the depth function. -/
theorem RenderTranslucent_depthFunc (env : Env) (h : PreservesDefaults env) (cfg : Config)
    (w : World) : (RenderTranslucent env cfg w).gl.depthFunc = w.gl.depthFunc := by
  unfold RenderTranslucent
  simp only [SetCameraPos, AlphaFunc, BlendFunc, EnableBrightmap, callExt, glDepthMask,
    World.gl_emit, h.depthFunc, id]

/-- Under `PreservesDefaults`, `RenderTranslucent` keeps the texture enable. -/
theorem RenderTranslucent_textureEnabled (env : Env) (h : PreservesDefaults env)
    (cfg : Config) (w : World) :
    (RenderTranslucent env cfg w).gl.textureEnabled = w.gl.textureEnabled := by
  unfold RenderTranslucent
  simp only [SetCameraPos, AlphaFunc, BlendFunc, EnableBrightmap, callExt, glDepthMask,
    World.gl_emit, h.textureEnabled, id]

/-- Under `PreservesDefaults`, `RenderTranslucent` returns with the standard blend
function. -/
theorem RenderTranslucent_blend (env : Env) (h : PreservesDefaults env) (cfg : Config)
    (w : World) :
    (RenderTranslucent env cfg w).gl.srcBlend = .GL_SRC_ALPHA ∧
    (RenderTranslucent env cfg w).gl.dstBlend = .GL_ONE_MINUS_SRC_ALPHA := by
  unfold RenderTranslucent
  simp only [SetCameraPos, AlphaFunc, BlendFunc, EnableBrightmap, callExt, glDepthMask,
    World.gl_emit, h.srcBlend, h.dstBlend, id, and_self]

/-- Under `PreservesDefaults`, the ambient-occlusion block keeps the depth function. -/
theorem ambientOcclusionStep_depthFunc (env : Env) (h : PreservesDefaults env)
    (applySSAO : Bool) (w : World) :
    (ambientOcclusionStep env applySSAO w).gl.depthFunc = w.gl.depthFunc := by
  unfold ambientOcclusionStep
  split <;>
    simp only [EnableDrawBuffers, Apply, ApplyMatrices, callExt, World.gl_emit, h.depthFunc, id]

/-- Under `PreservesDefaults`, the ambient-occlusion block keeps the texture enable. -/
theorem ambientOcclusionStep_textureEnabled (env : Env) (h : PreservesDefaults env)
    (applySSAO : Bool) (w : World) :
    (ambientOcclusionStep env applySSAO w).gl.textureEnabled = w.gl.textureEnabled := by
  unfold ambientOcclusionStep
  split <;>
    simp only [EnableDrawBuffers, Apply, ApplyMatrices, callExt, World.gl_emit,
      h.textureEnabled, id]

mutual
/-- Under `PreservesDefaults`, `DrawScene` returns with depth function `GL_LEQUAL`,
texturing enabled and the standard blend function. -/
theorem DrawScene_exit_state (env : Env) (h : PreservesDefaults env) (cfg : Config) :
    ∀ (scene : Scene) (drawmode : EDrawMode) (w : World),
      (DrawScene env cfg scene drawmode w).gl.depthFunc = .GL_LEQUAL ∧
      (DrawScene env cfg scene drawmode w).gl.textureEnabled = true ∧
      (DrawScene env cfg scene drawmode w).gl.srcBlend = .GL_SRC_ALPHA ∧
      (DrawScene env cfg scene drawmode w).gl.dstBlend = .GL_ONE_MINUS_SRC_ALPHA
  | .mk di portals, drawmode, w => by
    unfold DrawScene
    refine ⟨?_, ?_, (RenderTranslucent_blend env h cfg _).1,
      (RenderTranslucent_blend env h cfg _).2⟩
    · simp only [RenderTranslucent_depthFunc env h, World.gl_emit, id]
      apply (EndFrame_keeps env h cfg portals _ ?_ ?_).1
      · simp only [ambientOcclusionStep_depthFunc env h, apply_ite World.gl,
          apply_ite GLState.depthFunc, callExt, World.gl_emit, h.depthFunc,
          RenderScene_depthFunc env h, ite_self]
      · simp only [ambientOcclusionStep_textureEnabled env h, apply_ite World.gl,
          apply_ite GLState.textureEnabled, callExt, World.gl_emit, h.textureEnabled,
          RenderScene_textureEnabled env h, ite_self]
    · simp only [RenderTranslucent_textureEnabled env h, World.gl_emit, id]
      apply (EndFrame_keeps env h cfg portals _ ?_ ?_).2
      · simp only [ambientOcclusionStep_depthFunc env h, apply_ite World.gl,
          apply_ite GLState.depthFunc, callExt, World.gl_emit, h.depthFunc,
          RenderScene_depthFunc env h, ite_self]
      · simp only [ambientOcclusionStep_textureEnabled env h, apply_ite World.gl,
          apply_ite GLState.textureEnabled, callExt, World.gl_emit, h.textureEnabled,
          RenderScene_textureEnabled env h, ite_self]
/-- Under `PreservesDefaults`, `EndFrame` keeps depth function `GL_LEQUAL` and
enabled texturing. -/
theorem EndFrame_keeps (env : Env) (h : PreservesDefaults env) (cfg : Config) :
    ∀ (portals : PortalList) (w : World),
      w.gl.depthFunc = .GL_LEQUAL → w.gl.textureEnabled = true →
      (EndFrame env cfg portals w).gl.depthFunc = .GL_LEQUAL ∧
      (EndFrame env cfg portals w).gl.textureEnabled = true
  | .nil, w => by
    intro h1 h2
    unfold EndFrame
    exact ⟨h1, h2⟩
  | .cons p rest, w => by
    intro _ _
    unfold EndFrame
    apply EndFrame_keeps env h cfg rest
    · simp only [callExt, World.gl_emit, h.depthFunc]
      exact (DrawScene_exit_state env h cfg p .DM_PORTAL _).1
    · simp only [callExt, World.gl_emit, h.textureEnabled]
      exact (DrawScene_exit_state env h cfg p .DM_PORTAL _).2.1
end

end SceneState

/-! ## The ambient-occlusion budget -/

section Budget

theorem callExt_budget (env : Env) (e : ExtCall) (w : World) :
    (callExt env e w).ssao_portals_available = w.ssao_portals_available := rfl

/-- `RenderScene` does not touch the static `ssao_portals_available`. -/
theorem RenderScene_budget (env : Env) (cfg : Config) (di : FDrawInfo) (recursion : Int)
    (w : World) :
    (RenderScene env cfg di recursion w).ssao_portals_available = w.ssao_portals_available := by
  unfold RenderScene
  simp only [SetCameraPos, AlphaFunc, BlendFunc, EnableBrightmap,
    callExt, glDepthMask, glDepthFunc, glEnable, glDisable, glPolygonOffset, EnableFog,
    EnableTexture, SetTextureMode, World.budget_emit,
    apply_ite World.ssao_portals_available, ite_self]

/-- `RenderTranslucent` does not touch the static `ssao_portals_available`. -/
theorem RenderTranslucent_budget (env : Env) (cfg : Config) (w : World) :
    (RenderTranslucent env cfg w).ssao_portals_available = w.ssao_portals_available := by
  unfold RenderTranslucent
  simp only [SetCameraPos, AlphaFunc, BlendFunc, EnableBrightmap, callExt, glDepthMask,
    World.budget_emit]

/-- The ambient-occlusion block does not touch the static `ssao_portals_available`. -/
theorem ambientOcclusionStep_budget (env : Env) (applySSAO : Bool) (w : World) :
    (ambientOcclusionStep env applySSAO w).ssao_portals_available
      = w.ssao_portals_available := by
  unfold ambientOcclusionStep
  split <;>
    simp only [EnableDrawBuffers, Apply, ApplyMatrices, callExt, World.budget_emit]

/-- The prologue keeps a non-negative budget non-negative. -/
theorem ssaoBudget_nonneg (g : Int) (hg : 0 ≤ g) (m : EDrawMode) (a : Int) (ha : 0 ≤ a) :
    0 ≤ (ssaoBudget g m a).2 := by
  unfold ssaoBudget
  split_ifs <;> simp only [] <;> omega

theorem budgetAfter_nonneg (g : Int) (hg : 0 ≤ g) :
    ∀ (modes : List EDrawMode) (a : Int), 0 ≤ a → 0 ≤ budgetAfter g a modes
  | [], a, ha => by simpa [budgetAfter] using ha
  | m :: rest, a, ha => by
    unfold budgetAfter
    exact budgetAfter_nonneg g hg rest _ (ssaoBudget_nonneg g hg m a ha)

/-- With no pending portals, `DrawScene` leaves in the static what its prologue
computed. -/
theorem DrawScene_leaf_budget (env : Env) (cfg : Config) (di : FDrawInfo)
    (drawmode : EDrawMode) (w : World) :
    (DrawScene env cfg (.mk di .nil) drawmode w).ssao_portals_available =
      (ssaoBudget cfg.gl_ssao_portals drawmode w.ssao_portals_available).2 := by
  unfold DrawScene EndFrame
  simp only [RenderTranslucent_budget, World.budget_emit, ambientOcclusionStep_budget,
    apply_ite World.ssao_portals_available, callExt_budget, RenderScene_budget, ite_self]

mutual
/-- `DrawScene` keeps a non-negative budget non-negative. -/
theorem DrawScene_budget_nonneg (env : Env) (cfg : Config) (hg : 0 ≤ cfg.gl_ssao_portals) :
    ∀ (scene : Scene) (drawmode : EDrawMode) (w : World),
      0 ≤ w.ssao_portals_available →
      0 ≤ (DrawScene env cfg scene drawmode w).ssao_portals_available
  | .mk di portals, drawmode, w => by
    intro hw
    unfold DrawScene
    simp only [RenderTranslucent_budget, World.budget_emit]
    apply EndFrame_budget_nonneg env cfg hg portals
    simp only [ambientOcclusionStep_budget,
      apply_ite World.ssao_portals_available, callExt_budget, RenderScene_budget,
      World.budget_emit, ite_self]
    exact ssaoBudget_nonneg _ hg _ _ hw
/-- `EndFrame` keeps a non-negative budget non-negative. -/
theorem EndFrame_budget_nonneg (env : Env) (cfg : Config) (hg : 0 ≤ cfg.gl_ssao_portals) :
    ∀ (portals : PortalList) (w : World),
      0 ≤ w.ssao_portals_available →
      0 ≤ (EndFrame env cfg portals w).ssao_portals_available
  | .nil, w => by
    intro hw
    unfold EndFrame
    exact hw
  | .cons p rest, w => by
    intro hw
    unfold EndFrame
    apply EndFrame_budget_nonneg env cfg hg rest
    simp only [callExt_budget]
    exact DrawScene_budget_nonneg env cfg hg p .DM_PORTAL _ (by simpa only [callExt_budget] using hw)
end

end Budget

/-! ## Claims about the scene drawer -/

/-- Claim C1 fails as stated: with external routines that leave the pipeline state
alone, empty draw lists and no portals, `DrawScene` entered with depth function
`GL_LESS` returns with depth function `GL_LEQUAL`, not `GL_LESS`. -/
theorem DrawScene_exit_depthFunc_not_less :
    PreservesDefaults inertEnv ∧
    World.startup.gl.depthFunc = .GL_LESS ∧
    (DrawScene inertEnv sampleConfig emptyScene .DM_MAINVIEW World.startup).gl.depthFunc
      = .GL_LEQUAL ∧
    (DrawScene inertEnv sampleConfig emptyScene .DM_MAINVIEW World.startup).gl.depthFunc
      ≠ .GL_LESS :=
  ⟨fun _ _ _ => ⟨rfl, rfl, rfl, rfl⟩, by decide, by decide, by decide⟩

/-- Claim C1, amended: for every draw mode, scene and entry state, if the external
routines `DrawScene` calls (item draws, sky and portal set-up, scene creation,
ambient occlusion) leave depth function, blend function and texture enable as
they found them, then on return the depth function is `GL_LEQUAL` (the decal
pass of `RenderScene` sets it and nothing sets it back), the blend function is
(`GL_SRC_ALPHA`, `GL_ONE_MINUS_SRC_ALPHA`) and texturing is enabled. -/
theorem DrawScene_exit_defaults (env : Env) (h : PreservesDefaults env) (cfg : Config)
    (scene : Scene) (drawmode : EDrawMode) (w : World) :
    (DrawScene env cfg scene drawmode w).gl.depthFunc = .GL_LEQUAL ∧
    (DrawScene env cfg scene drawmode w).gl.srcBlend = .GL_SRC_ALPHA ∧
    (DrawScene env cfg scene drawmode w).gl.dstBlend = .GL_ONE_MINUS_SRC_ALPHA ∧
    (DrawScene env cfg scene drawmode w).gl.textureEnabled = true :=
  have key := DrawScene_exit_state env h cfg scene drawmode w
  ⟨key.1, key.2.2.1, key.2.2.2, key.2.1⟩

/-- Witness for the amended claim C1: a main view with nested portals. -/
theorem DrawScene_exit_defaults_witness :
    PreservesDefaults inertEnv ∧
    (DrawScene inertEnv sampleConfig nestedScene .DM_MAINVIEW World.startup).gl.depthFunc
      = .GL_LEQUAL ∧
    (DrawScene inertEnv sampleConfig nestedScene .DM_MAINVIEW World.startup).gl.srcBlend
      = .GL_SRC_ALPHA ∧
    (DrawScene inertEnv sampleConfig nestedScene .DM_MAINVIEW World.startup).gl.dstBlend
      = .GL_ONE_MINUS_SRC_ALPHA ∧
    (DrawScene inertEnv sampleConfig nestedScene .DM_MAINVIEW World.startup).gl.textureEnabled
      = true :=
  ⟨fun _ _ _ => ⟨rfl, rfl, rfl, rfl⟩,
   DrawScene_exit_defaults inertEnv (fun _ _ _ => ⟨rfl, rfl, rfl, rfl⟩) sampleConfig nestedScene
     .DM_MAINVIEW World.startup⟩

/-- Claim C2: the visible draws of `RenderScene` are, in this order and each once:
plain walls, plain flats, masked walls, masked flats, masked walls with offset
(only if that list is non-empty), models, decals, unhandled missing textures, all
draw-list draws being in pass `GLPASS_ALL`; no visible draw works on either
translucent list. -/
theorem RenderScene_visible_draw_order (env : Env) (cfg : Config) (di : FDrawInfo)
    (recursion : Int) (w : World) :
    visibleDraws (callsBetween w (RenderScene env cfg di recursion w)) =
      [.DrawWalls .GLDL_PLAINWALLS .GLPASS_ALL, .DrawFlats .GLDL_PLAINFLATS .GLPASS_ALL,
       .DrawWalls .GLDL_MASKEDWALLS .GLPASS_ALL, .DrawFlats .GLDL_MASKEDFLATS .GLPASS_ALL] ++
      (if di.drawlistSize .GLDL_MASKEDWALLSOFS > 0 then
        [.DrawWalls .GLDL_MASKEDWALLSOFS .GLPASS_ALL] else []) ++
      [.Draw .GLDL_MODELS .GLPASS_ALL false, .DrawDecals, .DrawUnhandledMissingTextures] ∧
    (∀ e ∈ visibleDraws (callsBetween w (RenderScene env cfg di recursion w)),
      e.drawList ≠ some .GLDL_TRANSLUCENT ∧ e.drawList ≠ some .GLDL_TRANSLUCENTBORDER) := by
  rw [RenderScene_calls]
  simp only [visibleDraws, externalCalls, List.filterMap_append, List.filter_append,
    apply_ite (List.filterMap _), apply_ite (List.filter _), List.filterMap_cons,
    List.filterMap_nil, List.filter_cons, List.filter_nil, ExtCall.isVisibleDraw]
  by_cases h5 : di.drawlistSize .GLDL_MASKEDWALLSOFS > 0 <;>
    simp [h5, ExtCall.drawList]

/-- Claim C3 fails as stated: entered with depth writes enabled (as `RenderScene`
leaves them), `RenderTranslucent` draws the translucent-border list while the
depth mask is still true; only the main translucent list is drawn with it false. -/
theorem RenderTranslucent_border_drawn_with_depth_writes :
    World.startup.gl.depthMask = true ∧
    externalWithDepthMask
        (eventsBetween World.startup (RenderTranslucent inertEnv sampleConfig World.startup)) =
      [(.Draw .GLDL_TRANSLUCENTBORDER .GLPASS_TRANSLUCENT false, true),
       (.DrawSorted .GLDL_TRANSLUCENT, false)] := by
  decide

/-- Claim C3, amended: for every pipeline state on entry, `RenderTranslucent`
draws the main (sorted) translucent list with depth writes disabled; the
translucent-border list is drawn before `glDepthMask(false)`, under the depth
mask the function was entered with. -/
theorem RenderTranslucent_depth_mask (env : Env) (cfg : Config) (w : World) :
    externalWithDepthMask (eventsBetween w (RenderTranslucent env cfg w)) =
      [(.Draw .GLDL_TRANSLUCENTBORDER .GLPASS_TRANSLUCENT false, w.gl.depthMask),
       (.DrawSorted .GLDL_TRANSLUCENT, false)] := by
  have h : eventsBetween w (RenderTranslucent env cfg w) =
      (RenderTranslucent env cfg w).trace.drop w.trace.length := rfl
  rw [h]
  simp [externalWithDepthMask, RenderTranslucent, SetCameraPos, AlphaFunc, BlendFunc,
    EnableBrightmap, callExt, glDepthMask]

/-- Claim C4: `RenderTranslucent` calls exactly two external routines, first the
draw of the translucent-border list and then the sorted draw of the main
translucent list; on return depth writes are enabled and the alpha test is
`GL_GEQUAL` with threshold 0.5, whatever the thresholds and the entry state. -/
theorem RenderTranslucent_order_and_exit (env : Env) (cfg : Config) (w : World) :
    externalCalls (callsBetween w (RenderTranslucent env cfg w)) =
      [.Draw .GLDL_TRANSLUCENTBORDER .GLPASS_TRANSLUCENT false,
       .DrawSorted .GLDL_TRANSLUCENT] ∧
    (RenderTranslucent env cfg w).gl.depthMask = true ∧
    (RenderTranslucent env cfg w).gl.alphaFunc = .GL_GEQUAL ∧
    (RenderTranslucent env cfg w).gl.alphaThreshold = 1/2 := by
  rw [RenderTranslucent_calls]
  simp [externalCalls, RenderTranslucent, SetCameraPos, AlphaFunc, BlendFunc, EnableBrightmap,
    callExt, glDepthMask]

/-! ## Claims about the model draw adapter -/

/-- Claim C5: `BeginDrawModel` issues `glEnable(GL_CULL_FACE)` if and only if the
actor's render style is not `STYLE_Normal` and the model flags do not contain
`MDL_DONTCULLBACKFACES`; accordingly the culling bit afterwards is the bit before
or-ed with that condition. -/
theorem BeginDrawModel_enables_culling_iff (k : ModelConsts) (portalMirrored : Bool)
    (actor : AActor) (smf : FSpriteModelFrame) (m : VSMatrix) (mirrored : Bool) (w : World) :
    (Call.glEnable .GL_CULL_FACE ∈
        callsBetween w (BeginDrawModel k portalMirrored actor smf m mirrored w) ↔
      actor.RenderStyle ≠ k.STYLE_Normal ∧ smf.flags &&& k.MDL_DONTCULLBACKFACES = 0) ∧
    ((BeginDrawModel k portalMirrored actor smf m mirrored w).gl.cullFace = true ↔
      w.gl.cullFace = true ∨
        (actor.RenderStyle ≠ k.STYLE_Normal ∧ smf.flags &&& k.MDL_DONTCULLBACKFACES = 0)) := by
  rw [BeginDrawModel_calls, ← cullCondition_iff]
  by_cases h : cullCondition k actor smf = true <;>
    simp [BeginDrawModel, h, glDepthFunc, EnableTexture, glEnable,
      glFrontFace, SetModelMatrix, EnableModelMatrix, GLState.setCap]

/-- Claim C6 fails as stated: for a `STYLE_Normal` actor whose model does not set
`MDL_DONTCULLBACKFACES` (so not "normal and flagged at the same time"),
`BeginDrawModel` issues no `glEnable(GL_CULL_FACE)` and culling stays off. -/
theorem BeginDrawModel_normal_unflagged_not_culled :
    ¬ (normalActor.RenderStyle = sampleConsts.STYLE_Normal ∧
        (0 : Nat) &&& sampleConsts.MDL_DONTCULLBACKFACES ≠ 0) ∧
    Call.glEnable .GL_CULL_FACE ∉
      callsBetween World.startup
        (BeginDrawModel sampleConsts false normalActor ⟨0⟩ sampleMatrix false World.startup) ∧
    (BeginDrawModel sampleConsts false normalActor ⟨0⟩ sampleMatrix false
        World.startup).gl.cullFace = false := by
  decide

/-- Claim C6, amended: `BeginDrawModel` enables back-face culling only when the
actor's render style is not `STYLE_Normal` and the model does not set
`MDL_DONTCULLBACKFACES`.  For a `STYLE_Normal` actor (flag set or not) and for a
non-normal actor whose model sets the flag it issues neither
`glEnable(GL_CULL_FACE)` nor `glFrontFace` and leaves the culling bit as it was;
for a non-normal actor whose model does not set the flag it enables culling. -/
theorem BeginDrawModel_culling_cases (k : ModelConsts) (portalMirrored : Bool)
    (actor : AActor) (smf : FSpriteModelFrame) (m : VSMatrix) (mirrored : Bool) (w : World) :
    (actor.RenderStyle = k.STYLE_Normal ∨ smf.flags &&& k.MDL_DONTCULLBACKFACES ≠ 0 →
      Call.glEnable .GL_CULL_FACE ∉
          callsBetween w (BeginDrawModel k portalMirrored actor smf m mirrored w) ∧
        (∀ mode, Call.glFrontFace mode ∉
          callsBetween w (BeginDrawModel k portalMirrored actor smf m mirrored w)) ∧
        (BeginDrawModel k portalMirrored actor smf m mirrored w).gl.cullFace = w.gl.cullFace) ∧
    (actor.RenderStyle ≠ k.STYLE_Normal ∧ smf.flags &&& k.MDL_DONTCULLBACKFACES = 0 →
      Call.glEnable .GL_CULL_FACE ∈
          callsBetween w (BeginDrawModel k portalMirrored actor smf m mirrored w) ∧
        (BeginDrawModel k portalMirrored actor smf m mirrored w).gl.cullFace = true) := by
  rw [BeginDrawModel_calls]
  constructor
  · intro h
    have hc : cullCondition k actor smf = false := by
      rw [Bool.eq_false_iff, Ne, cullCondition_iff]
      rcases h with h | h
      · exact fun hh => hh.1 h
      · exact fun hh => h hh.2
    simp [BeginDrawModel, hc, glDepthFunc, EnableTexture, SetModelMatrix, EnableModelMatrix]
  · intro h
    have hc : cullCondition k actor smf = true := (cullCondition_iff k actor smf).2 h
    simp [BeginDrawModel, hc, glDepthFunc, EnableTexture, glEnable,
      glFrontFace, SetModelMatrix, EnableModelMatrix, GLState.setCap]

/-- Witness for the amended claim C6: a non-normal actor whose model sets
the flag (flags = 64) is not culled. -/
theorem BeginDrawModel_culling_cases_witness :
    (translucentActor.RenderStyle = sampleConsts.STYLE_Normal ∨
        (64 : Nat) &&& sampleConsts.MDL_DONTCULLBACKFACES ≠ 0) ∧
    Call.glEnable .GL_CULL_FACE ∉
      callsBetween World.startup
        (BeginDrawModel sampleConsts false translucentActor ⟨64⟩ sampleMatrix false
          World.startup) :=
  ⟨by decide,
   ((BeginDrawModel_culling_cases sampleConsts false translucentActor ⟨64⟩ sampleMatrix false
      World.startup).1 (by decide)).1⟩

/-- Claim C7: whenever `BeginDrawModel` enables culling, it issues `glFrontFace`
with `GL_CW` exactly when `mirrored XOR portalMirrored` is false and with `GL_CCW`
otherwise, and the front-face winding afterwards is that value. -/
theorem BeginDrawModel_winding (k : ModelConsts) (portalMirrored : Bool)
    (actor : AActor) (smf : FSpriteModelFrame) (m : VSMatrix) (mirrored : Bool) (w : World)
    (h : Call.glEnable .GL_CULL_FACE ∈
      callsBetween w (BeginDrawModel k portalMirrored actor smf m mirrored w)) :
    (Call.glFrontFace .GL_CW ∈
        callsBetween w (BeginDrawModel k portalMirrored actor smf m mirrored w) ↔
      xor mirrored portalMirrored = false) ∧
    (Call.glFrontFace .GL_CCW ∈
        callsBetween w (BeginDrawModel k portalMirrored actor smf m mirrored w) ↔
      xor mirrored portalMirrored = true) ∧
    ((BeginDrawModel k portalMirrored actor smf m mirrored w).gl.frontFace = .GL_CW ↔
      xor mirrored portalMirrored = false) ∧
    ((BeginDrawModel k portalMirrored actor smf m mirrored w).gl.frontFace = .GL_CCW ↔
      xor mirrored portalMirrored = true) := by
  rw [BeginDrawModel_calls] at h ⊢
  by_cases hc : cullCondition k actor smf = true
  · cases mirrored <;> cases portalMirrored <;>
      simp [BeginDrawModel, hc, glDepthFunc, EnableTexture, glEnable,
        glFrontFace, SetModelMatrix, EnableModelMatrix, GLState.setCap]
  · simp [hc] at h

/-- Witness for claim C7: a culled model seen through a mirror
portal (`mirrored = false`, `portalMirrored = true`) gets winding `GL_CCW`. -/
theorem BeginDrawModel_winding_witness :
    (BeginDrawModel sampleConsts true translucentActor ⟨0⟩ sampleMatrix false
        World.startup).gl.frontFace = .GL_CCW ↔ xor false true = true :=
  (BeginDrawModel_winding sampleConsts true translucentActor ⟨0⟩ sampleMatrix false
    World.startup (by decide)).2.2.2

/-- Claim C8 fails as stated: with `mirrored = false` and an unmirrored portal
state (XOR false) `BeginDrawHUDModel` enables culling and sets the winding to
`GL_CCW`, where `BeginDrawModel` on the same flags sets `GL_CW`. -/
theorem BeginDrawHUDModel_unmirrored_is_ccw :
    Call.glEnable .GL_CULL_FACE ∈
      callsBetween World.startup
        (BeginDrawHUDModel sampleConsts false translucentActor sampleMatrix false
          World.startup) ∧
    xor false false = false ∧
    (BeginDrawHUDModel sampleConsts false translucentActor sampleMatrix false
        World.startup).gl.frontFace = .GL_CCW ∧
    (BeginDrawModel sampleConsts false translucentActor ⟨0⟩ sampleMatrix false
        World.startup).gl.frontFace = .GL_CW := by
  decide

/-- Claim C8, amended: the HUD-weapon entry uses the opposite winding of the
in-world entry: whenever `BeginDrawHUDModel` enables culling, it sets the front
face to `GL_CW` exactly when `mirrored XOR portalMirrored` is true, and to
`GL_CCW` exactly when it is false. -/
theorem BeginDrawHUDModel_winding (k : ModelConsts) (portalMirrored : Bool)
    (actor : AActor) (m : VSMatrix) (mirrored : Bool) (w : World)
    (h : Call.glEnable .GL_CULL_FACE ∈
      callsBetween w (BeginDrawHUDModel k portalMirrored actor m mirrored w)) :
    (Call.glFrontFace .GL_CW ∈
        callsBetween w (BeginDrawHUDModel k portalMirrored actor m mirrored w) ↔
      xor mirrored portalMirrored = true) ∧
    (Call.glFrontFace .GL_CCW ∈
        callsBetween w (BeginDrawHUDModel k portalMirrored actor m mirrored w) ↔
      xor mirrored portalMirrored = false) ∧
    ((BeginDrawHUDModel k portalMirrored actor m mirrored w).gl.frontFace = .GL_CW ↔
      xor mirrored portalMirrored = true) ∧
    ((BeginDrawHUDModel k portalMirrored actor m mirrored w).gl.frontFace = .GL_CCW ↔
      xor mirrored portalMirrored = false) := by
  rw [BeginDrawHUDModel_calls] at h ⊢
  by_cases hs : actor.RenderStyle = k.STYLE_Normal
  · simp [hs] at h
  · cases mirrored <;> cases portalMirrored <;>
      simp [BeginDrawHUDModel, hs, glDepthFunc, glEnable,
        glFrontFace, SetModelMatrix, EnableModelMatrix, GLState.setCap]

/-- Witness for the amended claim C8: a culled HUD model with
`mirrored = true` in an unmirrored portal state gets winding `GL_CW`. -/
theorem BeginDrawHUDModel_winding_witness :
    (BeginDrawHUDModel sampleConsts false translucentActor sampleMatrix true
        World.startup).gl.frontFace = .GL_CW ↔ xor true false = true :=
  (BeginDrawHUDModel_winding sampleConsts false translucentActor sampleMatrix true
    World.startup (by decide)).2.2.1

/-- Claim C9: starting with culling disabled, after `BeginDrawModel` the depth
function is `GL_LEQUAL`, the model matrix is the given transform and is enabled;
after the matching `EndDrawModel` the depth function is `GL_LESS`, culling is
disabled again and the model matrix is disabled. -/
theorem BeginDrawModel_EndDrawModel_bracket (k : ModelConsts) (portalMirrored : Bool)
    (actor : AActor) (smf : FSpriteModelFrame) (m : VSMatrix) (mirrored : Bool) (w : World)
    (h : w.gl.cullFace = false) :
    ((BeginDrawModel k portalMirrored actor smf m mirrored w).gl.depthFunc = .GL_LEQUAL ∧
      (BeginDrawModel k portalMirrored actor smf m mirrored w).gl.mModelMatrix = m ∧
      (BeginDrawModel k portalMirrored actor smf m mirrored w).gl.modelMatrixEnabled = true) ∧
    ((EndDrawModel k actor smf
        (BeginDrawModel k portalMirrored actor smf m mirrored w)).gl.depthFunc = .GL_LESS ∧
      (EndDrawModel k actor smf
        (BeginDrawModel k portalMirrored actor smf m mirrored w)).gl.cullFace = false ∧
      (EndDrawModel k actor smf
        (BeginDrawModel k portalMirrored actor smf m mirrored w)).gl.modelMatrixEnabled
          = false) := by
  by_cases hc : cullCondition k actor smf = true <;>
    simp [BeginDrawModel, EndDrawModel, hc, h, glDepthFunc, EnableTexture,
      glEnable, glDisable, glFrontFace, SetModelMatrix, EnableModelMatrix, GLState.setCap]

/-- Witness for claim C9: a culled model drawn from
the startup state, where culling is off. -/
theorem BeginDrawModel_EndDrawModel_bracket_witness :
    World.startup.gl.cullFace = false ∧
    (EndDrawModel sampleConsts translucentActor ⟨0⟩
      (BeginDrawModel sampleConsts true translucentActor ⟨0⟩ sampleMatrix false
        World.startup)).gl.cullFace = false :=
  ⟨rfl, (BeginDrawModel_EndDrawModel_bracket sampleConsts true translucentActor ⟨0⟩
    sampleMatrix false World.startup rfl).2.2.1⟩

/-! ## Claim about the ambient-occlusion budget -/

/-- Claim C10: with `gl_ssao_portals >= 0`, the static `ssao_portals_available`
(0 at program start) is non-negative after every sequence of `DrawScene`
invocations and after every `DrawScene` call on any scene tree.  The prologue of
a `DM_MAINVIEW` call sets it to `gl_ssao_portals` and is eligible, that of a
`DM_OFFSCREEN` call sets it to 0 and is not eligible, that of a `DM_PORTAL` call
is eligible and decrements it by one when it is positive and is not eligible
and leaves it at 0 otherwise; a `DrawScene` call without pending portals returns
with the value its prologue computed. -/
theorem DrawScene_ssao_budget (env : Env) (cfg : Config) (hg : 0 ≤ cfg.gl_ssao_portals) :
    World.startup.ssao_portals_available = 0 ∧
    (∀ (modes : List EDrawMode) (a : Int), 0 ≤ a →
      0 ≤ budgetAfter cfg.gl_ssao_portals a modes) ∧
    (∀ (scene : Scene) (drawmode : EDrawMode) (w : World), 0 ≤ w.ssao_portals_available →
      0 ≤ (DrawScene env cfg scene drawmode w).ssao_portals_available) ∧
    (∀ (di : FDrawInfo) (drawmode : EDrawMode) (w : World),
      (DrawScene env cfg (.mk di .nil) drawmode w).ssao_portals_available =
        (ssaoBudget cfg.gl_ssao_portals drawmode w.ssao_portals_available).2) ∧
    (∀ a : Int, ssaoBudget cfg.gl_ssao_portals .DM_MAINVIEW a = (true, cfg.gl_ssao_portals)) ∧
    (∀ a : Int, ssaoBudget cfg.gl_ssao_portals .DM_OFFSCREEN a = (false, 0)) ∧
    (∀ a : Int, 0 < a → ssaoBudget cfg.gl_ssao_portals .DM_PORTAL a = (true, a - 1)) ∧
    (∀ a : Int, 0 ≤ a → ¬ 0 < a →
      a = 0 ∧ ssaoBudget cfg.gl_ssao_portals .DM_PORTAL a = (false, 0)) := by
  refine ⟨rfl, budgetAfter_nonneg _ hg, DrawScene_budget_nonneg env cfg hg,
    DrawScene_leaf_budget env cfg, ?_, ?_, ?_, ?_⟩
  · intro a; simp [ssaoBudget]
  · intro a; simp [ssaoBudget]
  · intro a ha; simp [ssaoBudget, ha]
  · intro a h0 h1
    have : a = 0 := by omega
    subst this
    simp [ssaoBudget]

/-- Witness for claim C10: one ambient-occlusion portal allowed; a
main view followed by two portals ends with budget 0, and the nested scene run
from program start ends with a non-negative budget. -/
theorem DrawScene_ssao_budget_witness :
    0 ≤ sampleConfig.gl_ssao_portals ∧
    budgetAfter sampleConfig.gl_ssao_portals 0 [.DM_MAINVIEW, .DM_PORTAL, .DM_PORTAL] = 0 ∧
    0 ≤ (DrawScene inertEnv sampleConfig nestedScene .DM_MAINVIEW
      World.startup).ssao_portals_available :=
  ⟨by decide, by decide,
   (DrawScene_ssao_budget inertEnv sampleConfig (by decide)).2.2.1 nestedScene .DM_MAINVIEW
     World.startup (by decide)⟩

/-! ## The trace only grows -/

section TraceGrowth

theorem prefix_emit {t : List Event} {w : World} (c : Call) (f : GLState → GLState)
    (h : t <+: w.trace) : t <+: (w.emit c f).trace :=
  h.trans (List.prefix_append _ _)

theorem prefix_ite {t : List Event} {a b : World} (p : Prop) [Decidable p]
    (ha : t <+: a.trace) (hb : t <+: b.trace) : t <+: (if p then a else b).trace := by
  split <;> assumption

/-- `RenderScene` only appends to the trace. -/
theorem RenderScene_trace_grows (env : Env) (cfg : Config) (di : FDrawInfo) (recursion : Int)
    {t : List Event} {w : World} (h : t <+: w.trace) :
    t <+: (RenderScene env cfg di recursion w).trace := by
  unfold RenderScene
  simp only [SetCameraPos, AlphaFunc, BlendFunc, EnableBrightmap,
    callExt, glDepthMask, glDepthFunc, glEnable, glDisable, glPolygonOffset, EnableFog,
    EnableTexture, SetTextureMode]
  repeat' first
    | apply prefix_emit
    | apply prefix_ite
    | exact h

/-- `RenderTranslucent` only appends to the trace. -/
theorem RenderTranslucent_trace_grows (env : Env) (cfg : Config)
    {t : List Event} {w : World} (h : t <+: w.trace) :
    t <+: (RenderTranslucent env cfg w).trace := by
  unfold RenderTranslucent
  simp only [SetCameraPos, AlphaFunc, BlendFunc, EnableBrightmap, callExt, glDepthMask]
  repeat' first
    | apply prefix_emit
    | exact h

/-- The ambient-occlusion block only appends to the trace. -/
theorem ambientOcclusionStep_trace_grows (env : Env) (applySSAO : Bool)
    {t : List Event} {w : World} (h : t <+: w.trace) :
    t <+: (ambientOcclusionStep env applySSAO w).trace := by
  unfold ambientOcclusionStep
  simp only [EnableDrawBuffers, Apply, ApplyMatrices, callExt]
  repeat' first
    | apply prefix_emit
    | apply prefix_ite
    | exact h

mutual
/-- `DrawScene` only appends to the trace. -/
theorem DrawScene_trace_grows (env : Env) (cfg : Config) :
    ∀ (scene : Scene) (drawmode : EDrawMode) (t : List Event) (w : World),
      t <+: w.trace → t <+: (DrawScene env cfg scene drawmode w).trace
  | .mk di portals, drawmode, t, w => by
    intro h
    unfold DrawScene
    apply RenderTranslucent_trace_grows
    apply prefix_emit
    apply EndFrame_trace_grows env cfg portals
    apply ambientOcclusionStep_trace_grows
    apply prefix_ite
    · apply prefix_emit
      apply RenderScene_trace_grows
      apply prefix_emit
      apply prefix_emit
      exact h
    · apply RenderScene_trace_grows
      apply prefix_emit
      apply prefix_emit
      exact h
/-- `EndFrame` only appends to the trace. -/
theorem EndFrame_trace_grows (env : Env) (cfg : Config) :
    ∀ (portals : PortalList) (t : List Event) (w : World),
      t <+: w.trace → t <+: (EndFrame env cfg portals w).trace
  | .nil, t, w => by
    intro h
    unfold EndFrame
    exact h
  | .cons p rest, t, w => by
    intro h
    unfold EndFrame
    apply EndFrame_trace_grows env cfg rest
    apply prefix_emit
    apply DrawScene_trace_grows env cfg p
    apply prefix_emit
    exact h
end

/-- When the trace of `w1` extends that of `w0`, the calls of `w1` are those
of `w0` followed by the calls between them. -/
theorem calls_eq_append_callsBetween {w0 w1 : World} (h : w0.trace <+: w1.trace) :
    w1.calls = w0.calls ++ callsBetween w0 w1 := by
  obtain ⟨l, hl⟩ := h
  simp [callsBetween, World.calls, ← hl]

/-- When the trace of `w1` extends that of `w0`, it is the trace of `w0`
followed by the events between them. -/
theorem trace_eq_append_eventsBetween {w0 w1 : World} (h : w0.trace <+: w1.trace) :
    w1.trace = w0.trace ++ eventsBetween w0 w1 := by
  obtain ⟨l, hl⟩ := h
  simp [eventsBetween, ← hl]

end TraceGrowth

/-! ## The portal recursion counter -/

section Nesting

theorem renderSceneArgs_append (a b : List Call) :
    renderSceneArgs (a ++ b) = renderSceneArgs a ++ renderSceneArgs b := by
  simp [renderSceneArgs]

theorem renderSceneArgs_emit (c : Call) (f : GLState → GLState) (w : World) :
    renderSceneArgs (w.emit c f).calls = renderSceneArgs w.calls ++ renderSceneArgs [c] := by
  rw [World.calls_emit, renderSceneArgs_append]

/-- `RenderScene` itself issues no `RenderScene` call. -/
theorem RenderScene_renderSceneArgs (env : Env) (cfg : Config) (di : FDrawInfo)
    (recursion : Int) (w : World) :
    renderSceneArgs (RenderScene env cfg di recursion w).calls = renderSceneArgs w.calls := by
  rw [calls_eq_append_callsBetween (RenderScene_trace_grows env cfg di recursion
    (List.prefix_refl _)), RenderScene_calls, renderSceneArgs_append]
  simp only [renderSceneArgs, List.filterMap_append, apply_ite (List.filterMap _),
    List.filterMap_cons, List.filterMap_nil, ite_self, List.append_nil]

/-- `RenderTranslucent` issues no `RenderScene` call. -/
theorem RenderTranslucent_renderSceneArgs (env : Env) (cfg : Config) (w : World) :
    renderSceneArgs (RenderTranslucent env cfg w).calls = renderSceneArgs w.calls := by
  rw [calls_eq_append_callsBetween (RenderTranslucent_trace_grows env cfg
    (List.prefix_refl _)), RenderTranslucent_calls, renderSceneArgs_append]
  simp only [renderSceneArgs, List.filterMap_cons, List.filterMap_nil, List.append_nil]

/-- The ambient-occlusion block issues no `RenderScene` call. -/
theorem ambientOcclusionStep_renderSceneArgs (env : Env) (applySSAO : Bool) (w : World) :
    renderSceneArgs (ambientOcclusionStep env applySSAO w).calls = renderSceneArgs w.calls := by
  unfold ambientOcclusionStep
  split
  · simp only [EnableDrawBuffers, Apply, ApplyMatrices, callExt, renderSceneArgs_emit]
    simp only [renderSceneArgs, List.filterMap_cons, List.filterMap_nil, List.append_nil]
  · rfl

/-- `RenderScene` does not touch the static `recursion`. -/
theorem RenderScene_recursion (env : Env) (cfg : Config) (di : FDrawInfo) (recursion : Int)
    (w : World) : (RenderScene env cfg di recursion w).recursion = w.recursion := by
  unfold RenderScene
  simp only [SetCameraPos, AlphaFunc, BlendFunc, EnableBrightmap,
    callExt, glDepthMask, glDepthFunc, glEnable, glDisable, glPolygonOffset, EnableFog,
    EnableTexture, SetTextureMode, World.recursion_emit,
    apply_ite World.recursion, ite_self]

/-- `RenderTranslucent` does not touch the static `recursion`. -/
theorem RenderTranslucent_recursion (env : Env) (cfg : Config) (w : World) :
    (RenderTranslucent env cfg w).recursion = w.recursion := by
  unfold RenderTranslucent
  simp only [SetCameraPos, AlphaFunc, BlendFunc, EnableBrightmap, callExt, glDepthMask,
    World.recursion_emit]

/-- The ambient-occlusion block does not touch the static `recursion`. -/
theorem ambientOcclusionStep_recursion (env : Env) (applySSAO : Bool) (w : World) :
    (ambientOcclusionStep env applySSAO w).recursion = w.recursion := by
  unfold ambientOcclusionStep
  split <;>
    simp only [EnableDrawBuffers, Apply, ApplyMatrices, callExt, World.recursion_emit]

theorem World.calls_with (g : GLState) (r a : Int) (w : World) :
    (World.mk g r a w.trace).calls = w.calls := rfl

theorem callExt_recursion (env : Env) (e : ExtCall) (w : World) :
    (callExt env e w).recursion = w.recursion := rfl

mutual
/-- `DrawScene` returns with the static `recursion` as it found it, and the
`RenderScene` calls it gives rise to get the nesting depths as argument. -/
theorem DrawScene_nesting (env : Env) (cfg : Config) :
    ∀ (scene : Scene) (drawmode : EDrawMode) (w : World),
      (DrawScene env cfg scene drawmode w).recursion = w.recursion ∧
      renderSceneArgs (DrawScene env cfg scene drawmode w).calls =
        renderSceneArgs w.calls ++ scene.nesting w.recursion
  | .mk di portals, drawmode, w => by
    unfold DrawScene
    have ih1 := fun w => (EndFrame_nesting env cfg portals w).1
    have ih2 := fun w => (EndFrame_nesting env cfg portals w).2
    unfold Scene.nesting
    simp only [RenderTranslucent_recursion, RenderTranslucent_renderSceneArgs,
      World.recursion_emit, renderSceneArgs_emit, World.calls_with, ih1, ih2,
      ambientOcclusionStep_recursion, ambientOcclusionStep_renderSceneArgs,
      apply_ite World.recursion, apply_ite World.calls, apply_ite renderSceneArgs,
      callExt, RenderScene_recursion, RenderScene_renderSceneArgs, ite_self,
      add_sub_cancel_right, true_and]
    simp only [renderSceneArgs, List.filterMap_cons, List.filterMap_nil, List.append_nil,
      List.append_assoc, List.singleton_append, ite_self]
/-- `EndFrame` returns with the static `recursion` as it found it, and the
`RenderScene` calls it gives rise to get the nesting depths as argument. -/
theorem EndFrame_nesting (env : Env) (cfg : Config) :
    ∀ (portals : PortalList) (w : World),
      (EndFrame env cfg portals w).recursion = w.recursion ∧
      renderSceneArgs (EndFrame env cfg portals w).calls =
        renderSceneArgs w.calls ++ portals.nesting w.recursion
  | .nil, w => by
    unfold EndFrame PortalList.nesting
    simp
  | .cons p rest, w => by
    unfold EndFrame PortalList.nesting
    have ih1 := fun w => (EndFrame_nesting env cfg rest w).1
    have ih2 := fun w => (EndFrame_nesting env cfg rest w).2
    have d1 := fun w => (DrawScene_nesting env cfg p .DM_PORTAL w).1
    have d2 := fun w => (DrawScene_nesting env cfg p .DM_PORTAL w).2
    simp only [ih1, ih2, callExt, World.recursion_emit, renderSceneArgs_emit, d1, d2]
    simp only [renderSceneArgs, List.filterMap_cons, List.filterMap_nil, List.append_nil,
      List.append_assoc, and_self]
end

theorem renderSceneArgs_callsBetween {w0 w1 : World} (h : w0.trace <+: w1.trace)
    (l : List Int) (hl : renderSceneArgs w1.calls = renderSceneArgs w0.calls ++ l) :
    renderSceneArgs (callsBetween w0 w1) = l := by
  rw [calls_eq_append_callsBetween h, renderSceneArgs_append] at hl
  exact List.append_cancel_left hl

/-- `ProcessScene` only appends to the trace. -/
theorem ProcessScene_trace_grows (env : Env) (cfg : Config) (scene : Scene) (toscreen : Bool)
    {t : List Event} {w : World} (h : t <+: w.trace) :
    t <+: (ProcessScene env cfg scene toscreen w).trace := by
  unfold ProcessScene
  apply DrawScene_trace_grows
  apply prefix_emit
  exact h

/-- `ProcessScene` returns with the static `recursion` as it found it, and the
`RenderScene` calls it gives rise to get the nesting depths as argument. -/
theorem ProcessScene_nesting (env : Env) (cfg : Config) (scene : Scene) (toscreen : Bool)
    (w : World) :
    (ProcessScene env cfg scene toscreen w).recursion = w.recursion ∧
    renderSceneArgs (ProcessScene env cfg scene toscreen w).calls =
      renderSceneArgs w.calls ++ scene.nesting w.recursion := by
  unfold ProcessScene
  have d1 := fun m w => (DrawScene_nesting env cfg scene m w).1
  have d2 := fun m w => (DrawScene_nesting env cfg scene m w).2
  simp only [d1, d2, callExt, World.recursion_emit, renderSceneArgs_emit]
  simp only [renderSceneArgs, List.filterMap_cons, List.filterMap_nil, List.append_nil,
    and_self]

/-- Between frames the static `recursion` is 0. -/
theorem processScenes_recursion (env : Env) (cfg : Config) :
    ∀ (frames : List (Scene × Bool)) (w : World),
      (processScenes env cfg frames w).recursion = w.recursion
  | [], w => rfl
  | (scene, toscreen) :: rest, w => by
    unfold processScenes
    rw [processScenes_recursion env cfg rest, (ProcessScene_nesting env cfg scene toscreen w).1]

end Nesting

/-! ## The masked-offset pass and the end of the scene -/

section ScenePasses

theorem polygonOffsetAt_append (c : Call) (a b : List Event) :
    polygonOffsetAt c (a ++ b) = polygonOffsetAt c a ++ polygonOffsetAt c b := by
  simp [polygonOffsetAt]

theorem polygonOffsetAt_emit (c c' : Call) (f : GLState → GLState) (w : World) :
    polygonOffsetAt c (w.emit c' f).trace =
      polygonOffsetAt c w.trace ++
        (if c' = c then
          [(w.gl.polygonOffsetFill, w.gl.polygonOffsetFactor, w.gl.polygonOffsetUnits)]
         else []) := by
  rw [World.trace_emit, polygonOffsetAt_append]
  by_cases h : c' = c <;> simp [polygonOffsetAt, h]

theorem polygonOffsetAt_emit_ne (c c' : Call) (f : GLState → GLState) (w : World)
    (h : c' ≠ c) : polygonOffsetAt c (w.emit c' f).trace = polygonOffsetAt c w.trace := by
  rw [polygonOffsetAt_emit, if_neg h, List.append_nil]

theorem polygonOffsetAt_emit_self (c : Call) (f : GLState → GLState) (w : World) :
    polygonOffsetAt c (w.emit c f).trace =
      polygonOffsetAt c w.trace ++
        [(w.gl.polygonOffsetFill, w.gl.polygonOffsetFactor, w.gl.polygonOffsetUnits)] := by
  rw [polygonOffsetAt_emit, if_pos rfl]

theorem polygonOffsetAt_ite (c : Call) (p : Prop) [Decidable p] (a b : World) :
    polygonOffsetAt c (if p then a else b).trace =
      if p then polygonOffsetAt c a.trace else polygonOffsetAt c b.trace := by
  split <;> rfl

/-- The polygon-offset state under which `RenderScene` draws the masked walls
with offset. -/
theorem RenderScene_polygonOffsetAt_offsetWalls (env : Env) (cfg : Config) (di : FDrawInfo)
    (recursion : Int) (w : World) :
    polygonOffsetAt (.external (.DrawWalls .GLDL_MASKEDWALLSOFS .GLPASS_ALL))
        (RenderScene env cfg di recursion w).trace =
      polygonOffsetAt (.external (.DrawWalls .GLDL_MASKEDWALLSOFS .GLPASS_ALL)) w.trace ++
      (if di.drawlistSize .GLDL_MASKEDWALLSOFS > 0 then [(true, -1, -128)] else []) := by
  unfold RenderScene
  by_cases h : di.drawlistSize .GLDL_MASKEDWALLSOFS > 0 <;>
    simp only [h, SetCameraPos, AlphaFunc, BlendFunc, EnableBrightmap,
      callExt, glDepthMask, glDepthFunc, glEnable, glDisable, glPolygonOffset, EnableFog,
      EnableTexture, SetTextureMode, polygonOffsetAt_emit_self, polygonOffsetAt_emit_ne,
      polygonOffsetAt_ite, ne_eq, reduceCtorEq, not_false_eq_true,
      Call.external.injEq, ExtCall.DrawWalls.injEq, and_false, false_and, if_true,
      if_false, List.append_nil, ite_self, World.gl_emit, GLState.setCap]

/-- The polygon-offset state under which `RenderScene` draws the models. -/
theorem RenderScene_polygonOffsetAt_models (env : Env) (cfg : Config) (di : FDrawInfo)
    (recursion : Int) (w : World) (h : di.drawlistSize .GLDL_MASKEDWALLSOFS > 0) :
    polygonOffsetAt (.external (.Draw .GLDL_MODELS .GLPASS_ALL false))
        (RenderScene env cfg di recursion w).trace =
      polygonOffsetAt (.external (.Draw .GLDL_MODELS .GLPASS_ALL false)) w.trace ++
      [(false, 0, 0)] := by
  unfold RenderScene
  simp only [h, SetCameraPos, AlphaFunc, BlendFunc, EnableBrightmap,
    callExt, glDepthMask, glDepthFunc, glEnable, glDisable, glPolygonOffset, EnableFog,
    EnableTexture, SetTextureMode, polygonOffsetAt_emit_self, polygonOffsetAt_emit_ne,
    polygonOffsetAt_ite, ne_eq, reduceCtorEq, not_false_eq_true,
    Call.external.injEq, ExtCall.Draw.injEq, and_false, false_and, if_true,
    if_false, List.append_nil, ite_self, World.gl_emit, GLState.setCap]

theorem polygonOffsetAt_eventsBetween {w0 w1 : World} (h : w0.trace <+: w1.trace)
    (c : Call) (l : List (Bool × ℚ × ℚ))
    (hl : polygonOffsetAt c w1.trace = polygonOffsetAt c w0.trace ++ l) :
    polygonOffsetAt c (eventsBetween w0 w1) = l := by
  rw [trace_eq_append_eventsBetween h, polygonOffsetAt_append] at hl
  exact List.append_cancel_left hl

theorem segmentBetween_decomp (a b : Call) (P M S : List Call) (hP : a ∉ P) (hM : b ∉ M) :
    segmentBetween a b (P ++ a :: (M ++ b :: S)) = M := by
  have h1 : ∀ (P : List Call), a ∉ P → ∀ R : List Call,
      (P ++ a :: R).dropWhile (fun c => c != a) = a :: R := by
    intro P
    induction P with
    | nil => intro _ R; simp [List.dropWhile]
    | cons x xs ih =>
      intro hx R
      have hxa : (x != a) = true := by
        rw [bne_iff_ne]
        exact fun h => hx (by simp [h])
      have hxs : a ∉ xs := fun h => hx (by simp [h])
      rw [List.cons_append, List.dropWhile_cons, hxa]
      exact ih hxs R
  have h2 : ∀ (M : List Call), b ∉ M → ∀ R : List Call,
      (M ++ b :: R).takeWhile (fun c => c != b) = M := by
    intro M
    induction M with
    | nil => intro _ R; simp [List.takeWhile]
    | cons x xs ih =>
      intro hx R
      have hxb : (x != b) = true := by
        rw [bne_iff_ne]
        exact fun h => hx (by simp [h])
      have hxs : b ∉ xs := fun h => hx (by simp [h])
      rw [List.cons_append, List.takeWhile_cons, hxb]
      simp only [if_true]
      rw [ih hxs R]
  unfold segmentBetween
  rw [h1 P hP, List.drop_one, List.tail_cons, h2 M hM]

theorem mem_ite_nil (a : Call) (p : Prop) [Decidable p] (l : List Call) :
    a ∈ (if p then l else []) ↔ p ∧ a ∈ l := by
  split <;> simp [*]

theorem mem_ite_nil_left (a : Call) (p : Prop) [Decidable p] (l : List Call) :
    a ∈ (if p then [] else l) ↔ ¬ p ∧ a ∈ l := by
  split <;> simp [*]

/-- The calls of `RenderScene` strictly between the draw of the masked flats and
the draw of the models. -/
theorem RenderScene_segment_masked_models (env : Env) (cfg : Config) (di : FDrawInfo)
    (recursion : Int) (w : World) :
    segmentBetween (.external (.DrawFlats .GLDL_MASKEDFLATS .GLPASS_ALL))
        (.external (.Draw .GLDL_MODELS .GLPASS_ALL false))
        (callsBetween w (RenderScene env cfg di recursion w)) =
      (if di.drawlistSize .GLDL_MASKEDWALLSOFS > 0 then
        [.glEnable .GL_POLYGON_OFFSET_FILL, .glPolygonOffset (-1) (-128),
         .external (.DrawWalls .GLDL_MASKEDWALLSOFS .GLPASS_ALL),
         .glDisable .GL_POLYGON_OFFSET_FILL, .glPolygonOffset 0 0]
       else []) := by
  rw [RenderScene_calls]
  refine Eq.trans (congrArg _ ?_)
    (segmentBetween_decomp _ _
      ([.glDepthMask true] ++
        (if cfg.gl_no_skyclear then [] else [.external (.RenderFirstSkyPortal recursion)]) ++
        [.SetCameraPos, .EnableFog true, .BlendFunc .GL_ONE .GL_ZERO] ++
        (if cfg.gl_sort_textures then
          [.external (.SortWalls .GLDL_PLAINWALLS), .external (.SortFlats .GLDL_PLAINFLATS),
           .external (.SortWalls .GLDL_MASKEDWALLS), .external (.SortFlats .GLDL_MASKEDFLATS),
           .external (.SortWalls .GLDL_MASKEDWALLSOFS)]
         else []) ++
        (if cfg.lightmethodDeferred && cfg.HasDynamicLights && !di.isFullbrightScene then
          [.external .LightsBegin,
           .external (.DrawFlats .GLDL_PLAINFLATS .GLPASS_LIGHTSONLY),
           .external (.DrawFlats .GLDL_MASKEDFLATS .GLPASS_LIGHTSONLY),
           .external (.Draw .GLDL_TRANSLUCENTBORDER .GLPASS_LIGHTSONLY false),
           .external (.Draw .GLDL_TRANSLUCENT .GLPASS_LIGHTSONLY true),
           .external .LightsFinish]
         else []) ++
        [.glDepthFunc .GL_LESS, .AlphaFunc .GL_GEQUAL 0, .glDisable .GL_POLYGON_OFFSET_FILL,
         .EnableTexture cfg.gl_texture, .EnableBrightmap true,
         .external (.DrawWalls .GLDL_PLAINWALLS .GLPASS_ALL),
         .external (.DrawFlats .GLDL_PLAINFLATS .GLPASS_ALL)] ++
        (if cfg.gl_texture then [] else [.EnableTexture true, .SetTextureMode .TM_MASK]) ++
        [.AlphaFunc .GL_GEQUAL cfg.gl_mask_threshold,
         .external (.DrawWalls .GLDL_MASKEDWALLS .GLPASS_ALL)])
      (if di.drawlistSize .GLDL_MASKEDWALLSOFS > 0 then
        [.glEnable .GL_POLYGON_OFFSET_FILL, .glPolygonOffset (-1) (-128),
         .external (.DrawWalls .GLDL_MASKEDWALLSOFS .GLPASS_ALL),
         .glDisable .GL_POLYGON_OFFSET_FILL, .glPolygonOffset 0 0]
       else [])
      [.BlendFunc .GL_SRC_ALPHA .GL_ONE_MINUS_SRC_ALPHA,
       .glDepthFunc .GL_LEQUAL, .glEnable .GL_POLYGON_OFFSET_FILL,
       .glPolygonOffset (-1) (-128), .glDepthMask false,
       .external .DrawDecals,
       .SetTextureMode .TM_MODULATE, .glDepthMask true, .glPolygonOffset 1 128,
       .glDepthMask false, .EnableFog true, .AlphaFunc .GL_GEQUAL 0,
       .BlendFunc .GL_ONE .GL_ZERO,
       .external .DrawUnhandledMissingTextures,
       .glDepthMask true, .glPolygonOffset 0 0, .glDisable .GL_POLYGON_OFFSET_FILL] ?_ ?_)
  · simp only [List.append_assoc, List.cons_append, List.nil_append, List.singleton_append]
  · simp [mem_ite_nil, mem_ite_nil_left]
  · simp [mem_ite_nil]

theorem callsBetween_trans (w0 w1 w2 : World) (l1 l2 : List Call)
    (h1 : w1.calls = w0.calls ++ l1) (h2 : w2.calls = w1.calls ++ l2) :
    callsBetween w0 w2 = l1 ++ l2 := by
  simp [callsBetween, h1, h2]

/-- The calls `EndDrawScene` appends. -/
theorem EndDrawScene_calls (env : Env) (cfg : Config) (w : World) :
    (EndDrawScene env cfg w).calls = w.calls ++
      ([.EnableFog false] ++
      (if cfg.hudModelAvailable then
        [.glClearDepth, .external (.DrawPlayerSprites true)] else []) ++
      [.glDisable .GL_STENCIL_TEST, .glViewport,
       .BlendFunc .GL_SRC_ALPHA .GL_ONE_MINUS_SRC_ALPHA, .ResetColor, .EnableTexture true,
       .glDisable .GL_SCISSOR_TEST]) := by
  unfold EndDrawScene
  cases h : cfg.hudModelAvailable <;>
    simp only [EnableFog, glClearDepth, callExt, glDisable, Reset3DViewport, BlendFunc,
      ResetColor, EnableTexture, World.calls_emit, if_true, if_false, Bool.false_eq_true,
      List.append_assoc, List.singleton_append, List.cons_append, List.nil_append,
      List.append_nil]

/-- The calls `DrawEndScene2D` appends. -/
theorem DrawEndScene2D_calls (env : Env) (cfg : Config) (w : World) :
    (DrawEndScene2D env cfg w).calls = w.calls ++
      ([.LoadIdentityViewMatrix, .OrthoProjectionMatrix, .ApplyMatrices,
       .glDisable .GL_DEPTH_TEST, .glDisable .GL_MULTISAMPLE] ++
      (if cfg.RenderPlayerSpritesInScene = false ∧ cfg.hudModelAvailable = false then
        [.external (.DrawPlayerSprites false)] else []) ++
      [.SetSoftLightLevel (-1),
       .BlendFunc .GL_SRC_ALPHA .GL_ONE_MINUS_SRC_ALPHA, .ResetColor, .EnableTexture true,
       .glDisable .GL_SCISSOR_TEST]) := by
  unfold DrawEndScene2D
  cases h : cfg.hudModelAvailable <;> cases h2 : cfg.RenderPlayerSpritesInScene <;>
    simp [ApplyMatrices, callExt, glDisable, SetSoftLightLevel, BlendFunc,
      ResetColor, EnableTexture]

end ScenePasses

/-! ## Further claims about the scene drawer -/

/-- Claim C17: in `RenderScene`, between the draw of the masked flats and the draw
of the models there is no call at all when the masked-walls-with-offset list is
empty; when it is non-empty the calls there are `glEnable(GL_POLYGON_OFFSET_FILL)`,
`glPolygonOffset(-1, -128)`, the draw of that list, `glDisable(GL_POLYGON_OFFSET_FILL)`,
`glPolygonOffset(0, 0)`: the list is drawn once, with polygon-offset fill enabled
at offset (-1, -128), and the models are then drawn with polygon-offset fill
disabled at offset (0, 0). -/
theorem RenderScene_masked_offset_pass (env : Env) (cfg : Config) (di : FDrawInfo)
    (recursion : Int) (w : World) :
    segmentBetween (.external (.DrawFlats .GLDL_MASKEDFLATS .GLPASS_ALL))
        (.external (.Draw .GLDL_MODELS .GLPASS_ALL false))
        (callsBetween w (RenderScene env cfg di recursion w)) =
      (if di.drawlistSize .GLDL_MASKEDWALLSOFS > 0 then
        [.glEnable .GL_POLYGON_OFFSET_FILL, .glPolygonOffset (-1) (-128),
         .external (.DrawWalls .GLDL_MASKEDWALLSOFS .GLPASS_ALL),
         .glDisable .GL_POLYGON_OFFSET_FILL, .glPolygonOffset 0 0]
       else []) ∧
    polygonOffsetAt (.external (.DrawWalls .GLDL_MASKEDWALLSOFS .GLPASS_ALL))
        (eventsBetween w (RenderScene env cfg di recursion w)) =
      (if di.drawlistSize .GLDL_MASKEDWALLSOFS > 0 then [(true, -1, -128)] else []) ∧
    (di.drawlistSize .GLDL_MASKEDWALLSOFS > 0 →
      polygonOffsetAt (.external (.Draw .GLDL_MODELS .GLPASS_ALL false))
          (eventsBetween w (RenderScene env cfg di recursion w)) = [(false, 0, 0)]) :=
  ⟨RenderScene_segment_masked_models env cfg di recursion w,
   polygonOffsetAt_eventsBetween
     (RenderScene_trace_grows env cfg di recursion (List.prefix_refl _)) _ _
     (RenderScene_polygonOffsetAt_offsetWalls env cfg di recursion w),
   fun h => polygonOffsetAt_eventsBetween
     (RenderScene_trace_grows env cfg di recursion (List.prefix_refl _)) _ _
     (RenderScene_polygonOffsetAt_models env cfg di recursion w h)⟩

/-- Witness for claim C17: with one wall in the masked-walls-with-offset list the
models are drawn with polygon-offset fill disabled at offset (0, 0). -/
theorem RenderScene_masked_offset_pass_witness :
    oneWallDrawInfo.drawlistSize .GLDL_MASKEDWALLSOFS > 0 ∧
    polygonOffsetAt (.external (.Draw .GLDL_MODELS .GLPASS_ALL false))
        (eventsBetween World.startup
          (RenderScene inertEnv sampleConfig oneWallDrawInfo 0 World.startup)) =
      [(false, 0, 0)] :=
  ⟨by decide,
   (RenderScene_masked_offset_pass inertEnv sampleConfig oneWallDrawInfo 0 World.startup).2.2
     (by decide)⟩

/-- Claim C18: with `GLPortal::EndFrame` invoking `DrawScene` once per pending
portal, every `DrawScene` call returns with the static `recursion` equal to its
value on entry, and the `recursion` arguments of the `RenderScene` calls it gives
rise to are the numbers of enclosing `DrawScene` invocations counted from the
entry value: the entry value for its own call, one more for each level of
portal nesting.  After any sequence of frames from program start the counter
is 0, so the `DrawScene` call made by `ProcessScene` passes 0. -/
theorem DrawScene_recursion_counter (env : Env) (cfg : Config) :
    (∀ (scene : Scene) (drawmode : EDrawMode) (w : World),
      (DrawScene env cfg scene drawmode w).recursion = w.recursion ∧
      renderSceneArgs (callsBetween w (DrawScene env cfg scene drawmode w)) =
        scene.nesting w.recursion) ∧
    (∀ (di : FDrawInfo) (portals : PortalList) (depth : Int),
      (Scene.mk di portals).nesting depth = depth :: portals.nesting (depth + 1)) ∧
    (∀ frames : List (Scene × Bool),
      (processScenes env cfg frames World.startup).recursion = 0) ∧
    (∀ (frames : List (Scene × Bool)) (scene : Scene) (toscreen : Bool),
      renderSceneArgs
          (callsBetween (processScenes env cfg frames World.startup)
            (ProcessScene env cfg scene toscreen
              (processScenes env cfg frames World.startup))) =
        scene.nesting 0) := by
  refine ⟨fun scene drawmode w => ⟨(DrawScene_nesting env cfg scene drawmode w).1, ?_⟩,
    fun di portals depth => by rw [Scene.nesting], ?_, ?_⟩
  · exact renderSceneArgs_callsBetween
      (DrawScene_trace_grows env cfg scene drawmode _ w (List.prefix_refl _)) _
      (DrawScene_nesting env cfg scene drawmode w).2
  · intro frames
    rw [processScenes_recursion]
    rfl
  · intro frames scene toscreen
    have h := (ProcessScene_nesting env cfg scene toscreen
      (processScenes env cfg frames World.startup)).2
    rw [processScenes_recursion] at h
    exact renderSceneArgs_callsBetween
      (ProcessScene_trace_grows env cfg scene toscreen (List.prefix_refl _)) _ h

/-- Claim C19: in a stereo mode that does not render player sprites in the scene,
`EndDrawScene` followed by `DrawEndScene2D` (same HUD-model availability) calls
`DrawPlayerSprites` exactly once.  When a HUD model is available, `EndDrawScene`
calls it with `true` right after `glClear(GL_DEPTH_BUFFER_BIT)` and
`DrawEndScene2D` does not call it; otherwise `EndDrawScene` does not call it and
`DrawEndScene2D` calls it with `false`. -/
theorem DrawPlayerSprites_once (env : Env) (cfg : Config) (w : World)
    (h : cfg.RenderPlayerSpritesInScene = false) :
    drawPlayerSpritesArgs
        (callsBetween w (DrawEndScene2D env cfg (EndDrawScene env cfg w))) =
      [cfg.hudModelAvailable] ∧
    drawPlayerSpritesArgs (callsBetween w (EndDrawScene env cfg w)) =
      (if cfg.hudModelAvailable then [true] else []) ∧
    drawPlayerSpritesArgs
        (callsBetween (EndDrawScene env cfg w)
          (DrawEndScene2D env cfg (EndDrawScene env cfg w))) =
      (if cfg.hudModelAvailable then [] else [false]) ∧
    callsBetween w (EndDrawScene env cfg w) =
      [.EnableFog false] ++
      (if cfg.hudModelAvailable then
        [.glClearDepth, .external (.DrawPlayerSprites true)] else []) ++
      [.glDisable .GL_STENCIL_TEST, .glViewport,
       .BlendFunc .GL_SRC_ALPHA .GL_ONE_MINUS_SRC_ALPHA, .ResetColor, .EnableTexture true,
       .glDisable .GL_SCISSOR_TEST] := by
  rw [callsBetween_trans _ _ _ _ _ (EndDrawScene_calls env cfg w)
      (DrawEndScene2D_calls env cfg (EndDrawScene env cfg w)),
    callsBetween_of_append _ _ _ (EndDrawScene_calls env cfg w),
    callsBetween_of_append _ _ _ (DrawEndScene2D_calls env cfg (EndDrawScene env cfg w))]
  cases hh : cfg.hudModelAvailable <;> simp [h, drawPlayerSpritesArgs]

/-- Witness for claim C19: the sample configuration renders no player sprites
in the scene and has no HUD model, so the sprites are drawn once, in 2D. -/
theorem DrawPlayerSprites_once_witness :
    sampleConfig.RenderPlayerSpritesInScene = false ∧
    drawPlayerSpritesArgs
        (callsBetween World.startup
          (DrawEndScene2D inertEnv sampleConfig
            (EndDrawScene inertEnv sampleConfig World.startup))) = [false] :=
  ⟨rfl, (DrawPlayerSprites_once inertEnv sampleConfig World.startup rfl).1⟩

/-! ## Claim about the save picture read-back -/

theorem wrapInt32_eq (x : Int) (h1 : -2147483648 ≤ x) (h2 : x < 2147483648) :
    wrapInt32 x = x := by
  unfold wrapInt32
  omega

/-- Without overflow `WriteSavePic` computes the exact products. -/
theorem WriteSavePic_exact (width height : Int) (hw : 1 ≤ width) (hh : 1 ≤ height)
    (hfit : width * height * 3 < 2147483648) :
    (WriteSavePic width height).mallocSize = width * height * 3 ∧
    (WriteSavePic width height).pngStart = (height - 1) * width * 3 ∧
    (WriteSavePic width height).pngPitch = -(width * 3) := by
  have h1 : 0 ≤ (height - 1) * width := by nlinarith
  have h2 : 1 ≤ width * height := by nlinarith
  have h3 : width * height = (height - 1) * width + width := by ring
  have h4 : height ≤ width * height := by nlinarith
  have h5 : width ≤ width * height := by nlinarith
  have e1 : wrapInt32 (width * height) = width * height :=
    wrapInt32_eq _ (by omega) (by omega)
  have e2 : wrapInt32 (height - 1) = height - 1 :=
    wrapInt32_eq _ (by omega) (by omega)
  have e3 : wrapInt32 ((height - 1) * width) = (height - 1) * width :=
    wrapInt32_eq _ (by omega) (by omega)
  have e4 : wrapInt32 (-width) = -width :=
    wrapInt32_eq _ (by omega) (by omega)
  refine ⟨?_, ?_, ?_⟩
  · show wrapInt32 (wrapInt32 (width * height) * 3) = _
    rw [e1]
    exact wrapInt32_eq _ (by omega) (by omega)
  · show wrapInt32 (wrapInt32 (wrapInt32 (height - 1) * width) * 3) = _
    rw [e2, e3]
    exact wrapInt32_eq _ (by omega) (by omega)
  · show wrapInt32 (wrapInt32 (-width) * 3) = _
    rw [e4]
    rw [wrapInt32_eq _ (by omega) (by omega)]
    ring

/-- Claim C11: for `width >= 1`, `height >= 1` and `width * height * 3`
representable as `int`, `WriteSavePic` allocates and reads back exactly
`width * height * 3` bytes and gives the encoder the start offset
`(height - 1) * width * 3` and the pitch `-width * 3`; encoder row `i`
(`0 <= i < height`) then starts where read-back row `height - 1 - i` starts, and
each of its `width * 3` bytes lies inside the buffer. -/
theorem WriteSavePic_layout (width height : Int) (hw : 1 ≤ width) (hh : 1 ≤ height)
    (hfit : width * height * 3 < 2147483648) :
    (WriteSavePic width height).mallocSize = width * height * 3 ∧
    (WriteSavePic width height).readWidth = width ∧
    (WriteSavePic width height).readHeight = height ∧
    (WriteSavePic width height).pngStart = (height - 1) * width * 3 ∧
    (WriteSavePic width height).pngPitch = -(width * 3) ∧
    (WriteSavePic width height).pngWidth = width ∧
    (WriteSavePic width height).pngHeight = height ∧
    (∀ i : Int, 0 ≤ i → i < height →
      encoderRowOffset (WriteSavePic width height) i =
        readbackRowOffset width (height - 1 - i) ∧
      ∀ j : Int, 0 ≤ j → j < width * 3 →
        0 ≤ encoderRowOffset (WriteSavePic width height) i + j ∧
        encoderRowOffset (WriteSavePic width height) i + j <
          (WriteSavePic width height).mallocSize) := by
  obtain ⟨e1, e2, e3⟩ := WriteSavePic_exact width height hw hh hfit
  refine ⟨e1, rfl, rfl, e2, e3, rfl, rfl, ?_⟩
  intro i hi0 hih
  have hrow : encoderRowOffset (WriteSavePic width height) i =
      readbackRowOffset width (height - 1 - i) := by
    unfold encoderRowOffset readbackRowOffset
    rw [e2, e3]
    ring
  refine ⟨hrow, ?_⟩
  intro j hj0 hjw
  rw [hrow, e1]
  unfold readbackRowOffset
  have hw3 : 0 < width * 3 := by omega
  have ha : 0 ≤ (height - 1 - i) * (width * 3) :=
    mul_nonneg (by omega) (by omega)
  have hb : (height - 1 - i) * (width * 3) ≤ (height - 1) * (width * 3) :=
    mul_le_mul_of_nonneg_right (by omega) (by omega)
  constructor
  · omega
  · have hc : (height - 1) * (width * 3) + width * 3 = width * height * 3 := by ring
    omega

/-- Witness for claim C11: a 4x4 capture uses a 48-byte buffer, and the first
encoder row is the last read-back row, at offset 36. -/
theorem WriteSavePic_layout_witness :
    (WriteSavePic 4 4).mallocSize = 48 ∧
    encoderRowOffset (WriteSavePic 4 4) 0 = readbackRowOffset 4 3 ∧
    readbackRowOffset 4 3 = 36 :=
  ⟨(WriteSavePic_layout 4 4 (by decide) (by decide) (by decide)).1,
   ((WriteSavePic_layout 4 4 (by decide) (by decide) (by decide)).2.2.2.2.2.2.2 0
      (by decide) (by decide)).1,
   by decide⟩

/-! ## Claims about the model vertex buffer -/

/-- Claim C12 fails as stated: with `vbo_id = 0` and `needindex = true` the
constructor calls `glGenBuffers` and stores the name of an index buffer, and
`LockIndexBuffer` then maps that buffer and returns a non-null pointer. -/
theorem FModelVertexBuffer_fallback_has_index_buffer :
    (FModelVertexBuffer.new sampleDriver 0 true false).vbo_id = 0 ∧
    (FModelVertexBuffer.new sampleDriver 0 true false).ibo_id = 1 ∧
    (FModelVertexBuffer.new sampleDriver 0 true false).calls = [.glGenBuffers 1] ∧
    (LockIndexBuffer sampleDriver 6 (FModelVertexBuffer.new sampleDriver 0 true false)).1
      ≠ 0 := by
  decide

/-- Claim C12, amended: for a buffer created with `needindex = true` while no
hardware vertex buffer is available (`vbo_id = 0`), the constructor still
creates an index buffer with `glGenBuffers` and, that name being non-zero,
`LockIndexBuffer` binds it, allocates `size` indices and returns the pointer
obtained from `glMapBufferRange`, for every requested size. -/
theorem FModelVertexBuffer_index_buffer_in_fallback (gl : GLDriver) (singleframe : Bool)
    (size : Nat) (hgen : gl.glGenBuffers ≠ 0) :
    (FModelVertexBuffer.new gl 0 true singleframe).vbo_id = 0 ∧
    (FModelVertexBuffer.new gl 0 true singleframe).ibo_id = gl.glGenBuffers ∧
    (FModelVertexBuffer.new gl 0 true singleframe).calls = [.glGenBuffers 1] ∧
    (LockIndexBuffer gl size (FModelVertexBuffer.new gl 0 true singleframe)).1 =
      gl.glMapBufferRange .GL_ELEMENT_ARRAY_BUFFER ∧
    (LockIndexBuffer gl size (FModelVertexBuffer.new gl 0 true singleframe)).2.calls =
      [.glGenBuffers 1,
       .glBindBuffer .GL_ELEMENT_ARRAY_BUFFER gl.glGenBuffers,
       .glBufferData .GL_ELEMENT_ARRAY_BUFFER size .unsignedInt,
       .glMapBufferRange .GL_ELEMENT_ARRAY_BUFFER size .unsignedInt] := by
  simp [FModelVertexBuffer.new, LockIndexBuffer, hgen]

/-- Witness for the amended claim C12: six indices locked in a fallback buffer. -/
theorem FModelVertexBuffer_index_buffer_in_fallback_witness :
    sampleDriver.glGenBuffers ≠ 0 ∧
    (LockIndexBuffer sampleDriver 6 (FModelVertexBuffer.new sampleDriver 0 true false)).1 =
      sampleDriver.glMapBufferRange .GL_ELEMENT_ARRAY_BUFFER :=
  ⟨by decide,
   (FModelVertexBuffer_index_buffer_in_fallback sampleDriver false 6 (by decide)).2.2.2.1⟩

/-- Claim C13: with a graphics API that hands out non-zero buffer names and
non-null mappings, `LockIndexBuffer` returns a null pointer if and only if the
buffer has no index storage (`ibo_id = 0`), which for a freshly constructed
buffer means `needindex = false`; in that case `LockIndexBuffer` and
`UnlockIndexBuffer` issue no graphics call and leave the buffer as it is, for
every size. -/
theorem LockIndexBuffer_null_iff (gl : GLDriver) (hgen : gl.glGenBuffers ≠ 0)
    (hmap : gl.glMapBufferRange .GL_ELEMENT_ARRAY_BUFFER ≠ 0) :
    (∀ (b : FModelVertexBuffer) (size : Nat),
      (LockIndexBuffer gl size b).1 = 0 ↔ b.ibo_id = 0) ∧
    (∀ (vbo_id : Nat) (needindex singleframe : Bool),
      (FModelVertexBuffer.new gl vbo_id needindex singleframe).ibo_id = 0 ↔
        needindex = false) ∧
    (∀ (vbo_id : Nat) (needindex singleframe : Bool) (size : Nat),
      (LockIndexBuffer gl size
        (FModelVertexBuffer.new gl vbo_id needindex singleframe)).1 = 0 ↔
        needindex = false) ∧
    (∀ (b : FModelVertexBuffer) (size : Nat), b.ibo_id = 0 →
      LockIndexBuffer gl size b = (0, b) ∧ UnlockIndexBuffer b = b) := by
  have h1 : ∀ (b : FModelVertexBuffer) (size : Nat),
      (LockIndexBuffer gl size b).1 = 0 ↔ b.ibo_id = 0 := by
    intro b size
    by_cases h : b.ibo_id = 0 <;> simp [LockIndexBuffer, h, hmap]
  have h2 : ∀ (vbo_id : Nat) (needindex singleframe : Bool),
      (FModelVertexBuffer.new gl vbo_id needindex singleframe).ibo_id = 0 ↔
        needindex = false := by
    intro vbo_id needindex singleframe
    cases needindex <;> simp [FModelVertexBuffer.new, hgen]
  refine ⟨h1, h2, fun vbo_id needindex singleframe size => (h1 _ size).trans (h2 _ _ _), ?_⟩
  intro b size h
  simp [LockIndexBuffer, UnlockIndexBuffer, h]

/-- Witness for claim C13: a buffer created without index storage returns null. -/
theorem LockIndexBuffer_null_iff_witness :
    sampleDriver.glGenBuffers ≠ 0 ∧
    sampleDriver.glMapBufferRange .GL_ELEMENT_ARRAY_BUFFER ≠ 0 ∧
    (FModelVertexBuffer.new sampleDriver 3 false true).ibo_id = 0 ∧
    LockIndexBuffer sampleDriver 6 (FModelVertexBuffer.new sampleDriver 3 false true) =
      (0, FModelVertexBuffer.new sampleDriver 3 false true) :=
  ⟨by decide, by decide, by decide,
   ((LockIndexBuffer_null_iff sampleDriver (by decide) (by decide)).2.2.2
      (FModelVertexBuffer.new sampleDriver 3 false true) 6 (by decide)).1⟩

/-- Claim C14: in fallback mode (`vbo_id = 0`), whatever the buffer held before,
`LockVertexBuffer(n)` returns the heap array it stores in `vbo_ptr`: exactly
`n` vertices, all zero, the same for every previous content; it issues no
graphics call, and `UnlockVertexBuffer` leaves the buffer unchanged. -/
theorem LockVertexBuffer_fallback (gl : GLDriver) (n : Nat) (b : FModelVertexBuffer)
    (h : b.vbo_id = 0) :
    (LockVertexBuffer gl n b).1 = .heap (List.replicate n FModelVertex.zero) ∧
    (LockVertexBuffer gl n b).2.vbo_ptr = some (List.replicate n FModelVertex.zero) ∧
    (List.replicate n FModelVertex.zero).length = n ∧
    (∀ vtx ∈ List.replicate n FModelVertex.zero, vtx = FModelVertex.zero) ∧
    (∀ old : Option (List FModelVertex),
      LockVertexBuffer gl n { b with vbo_ptr := old } = LockVertexBuffer gl n b) ∧
    (LockVertexBuffer gl n b).2.calls = b.calls ∧
    (LockVertexBuffer gl n b).2.vbo_id = 0 ∧
    (LockVertexBuffer gl n b).2.ibo_id = b.ibo_id ∧
    UnlockVertexBuffer (LockVertexBuffer gl n b).2 = (LockVertexBuffer gl n b).2 := by
  simp [LockVertexBuffer, UnlockVertexBuffer, h]

/-- Witness for claim C14: locking two vertices in a fallback buffer that held two
non-zero vertices returns two zero vertices. -/
theorem LockVertexBuffer_fallback_witness :
    usedFallbackBuffer.vbo_id = 0 ∧
    (LockVertexBuffer sampleDriver 2 usedFallbackBuffer).1 =
      .heap [FModelVertex.zero, FModelVertex.zero] :=
  ⟨rfl, (LockVertexBuffer_fallback sampleDriver 2 usedFallbackBuffer rfl).1⟩

/-! ## Claims about the HUD model transform -/

/-- Claim C15: with more than one eye, and a VR mode that leaves the matrix alone
when it supplies no weapon transform, the matrix `PrepareRenderHUDModel` returns
is the identity multiplied, in this order, by the placement (the supplied weapon
transform, scale by the literal `0.01f`, translate (0, 5 + gl_weaponOfsZ,
30 + gl_weaponOfsY); or else translate (pos.X, pos.Z + 40, pos.Y), rotate
-yaw - 90 about Y), then scale (xscale, zscale, yscale), translate
(xoffset / xscale, zoffset / zscale, yoffset / yscale), rotate ofsX / 4 about Y,
rotate (ofsY - WEAPONTOP) / (-4.) about X, rotate 90 about Y, rotate -angleoffset
about Y, rotate pitchoffset about Z, rotate -rolloffset about X.  The arguments
are the expressions of the source, unevaluated: nothing is said about how C++
rounds them. -/
theorem PrepareRenderHUDModel_stereo_matrix (cfg : Config) (k : HUDModelConsts)
    (vrmode : VRMode) (generic : GenericPrepareRenderHUDModel) (playermo : PlayerPose)
    (smf : FSpriteModelFramePlacement) (ofsX ofsY : ℚ) (objectToWorldMatrix : VSMatrix)
    (st : ModelRendererState) (h : vrmode.mEyeCount > 1)
    (hkeep : (vrmode.GetWeaponTransform VSMatrix.identity).1 = false →
      (vrmode.GetWeaponTransform VSMatrix.identity).2 = VSMatrix.identity) :
    (PrepareRenderHUDModel cfg k vrmode generic playermo smf ofsX ofsY objectToWorldMatrix
        st).2 =
      ⟨VSMatrix.identity.factors ++
        (if (vrmode.GetWeaponTransform VSMatrix.identity).1 then
          (vrmode.GetWeaponTransform VSMatrix.identity).2.factors ++
            [.scaleExpr float_0_01 float_0_01 float_0_01,
             .translateExpr (.intLit 0) (.add (.intLit 5) (.input k.gl_weaponOfsZ))
               (.add (.intLit 30) (.input k.gl_weaponOfsY))]
         else
          [.translateExpr (.input playermo.InterpolatedPosition.X)
             (.add (.input playermo.InterpolatedPosition.Z) (.intLit 40))
             (.input playermo.InterpolatedPosition.Y),
           .rotateExpr (.sub (.neg (.input playermo.Yaw)) (.intLit 90))
             (.intLit 0) (.intLit 1) (.intLit 0)]) ++
        [.scaleExpr (.input smf.xscale) (.input smf.zscale) (.input smf.yscale),
         .translateExpr (.div (.input smf.xoffset) (.input smf.xscale))
           (.div (.input smf.zoffset) (.input smf.zscale))
           (.div (.input smf.yoffset) (.input smf.yscale)),
         .rotateExpr (.div (.input ofsX) (.intLit 4)) (.intLit 0) (.intLit 1) (.intLit 0),
         .rotateExpr (.div (.sub (.input ofsY) (.input k.WEAPONTOP)) (.neg (.doubleLit 4)))
           (.intLit 1) (.intLit 0) (.intLit 0),
         .rotateExpr (.floatLit 90) (.intLit 0) (.intLit 1) (.intLit 0),
         .rotateExpr (.neg (.input smf.angleoffset)) (.intLit 0) (.intLit 1) (.intLit 0),
         .rotateExpr (.input smf.pitchoffset) (.intLit 0) (.intLit 0) (.intLit 1),
         .rotateExpr (.neg (.input smf.rolloffset)) (.intLit 1) (.intLit 0) (.intLit 0)]⟩ := by
  unfold PrepareRenderHUDModel
  cases hs : (vrmode.GetWeaponTransform VSMatrix.identity).1
  · have hk := hkeep hs
    simp [h, hs, hk, updateModelMatrix, SetModelMatrix, AlphaFunc, EnableModelMatrix,
      VSMatrix.scale, VSMatrix.translate, VSMatrix.rotate, VSMatrix.identity] at *
  · simp [h, hs, updateModelMatrix, SetModelMatrix, AlphaFunc, EnableModelMatrix,
      VSMatrix.scale, VSMatrix.translate, VSMatrix.rotate, VSMatrix.identity] at *

/-- Witness for claim C15: a two-eye mode that supplies weapon transform 7 and one
that supplies none, for a player at (10, 20, 30) with yaw 90, a model frame of
unit scale without offsets, `ofsX = 0`, `ofsY = 32`, `WEAPONTOP = 32`. -/
theorem PrepareRenderHUDModel_stereo_matrix_witness :
    (sampleVRMode.mEyeCount > 1 ∧
      (PrepareRenderHUDModel sampleConfig sampleHUDConsts sampleVRMode sampleGeneric
          samplePlayer samplePlacement 0 32 VSMatrix.identity ModelRendererState.startup).2 =
        ⟨[.multMatrix 7,
          .scaleExpr (.floatLit (5368709/536870912)) (.floatLit (5368709/536870912))
            (.floatLit (5368709/536870912)),
          .translateExpr (.intLit 0) (.add (.intLit 5) (.input 0))
            (.add (.intLit 30) (.input 0)),
          .scaleExpr (.input 1) (.input 1) (.input 1),
          .translateExpr (.div (.input 0) (.input 1)) (.div (.input 0) (.input 1))
            (.div (.input 0) (.input 1)),
          .rotateExpr (.div (.input 0) (.intLit 4)) (.intLit 0) (.intLit 1) (.intLit 0),
          .rotateExpr (.div (.sub (.input 32) (.input 32)) (.neg (.doubleLit 4)))
            (.intLit 1) (.intLit 0) (.intLit 0),
          .rotateExpr (.floatLit 90) (.intLit 0) (.intLit 1) (.intLit 0),
          .rotateExpr (.neg (.input 0)) (.intLit 0) (.intLit 1) (.intLit 0),
          .rotateExpr (.input 0) (.intLit 0) (.intLit 0) (.intLit 1),
          .rotateExpr (.neg (.input 0)) (.intLit 1) (.intLit 0) (.intLit 0)]⟩) ∧
    (plainStereoMode.mEyeCount > 1 ∧
      (plainStereoMode.GetWeaponTransform VSMatrix.identity).2 = VSMatrix.identity ∧
      (PrepareRenderHUDModel sampleConfig sampleHUDConsts plainStereoMode sampleGeneric
          samplePlayer samplePlacement 0 32 VSMatrix.identity ModelRendererState.startup).2 =
        ⟨[.translateExpr (.input 10) (.add (.input 30) (.intLit 40)) (.input 20),
          .rotateExpr (.sub (.neg (.input 90)) (.intLit 90)) (.intLit 0) (.intLit 1) (.intLit 0),
          .scaleExpr (.input 1) (.input 1) (.input 1),
          .translateExpr (.div (.input 0) (.input 1)) (.div (.input 0) (.input 1))
            (.div (.input 0) (.input 1)),
          .rotateExpr (.div (.input 0) (.intLit 4)) (.intLit 0) (.intLit 1) (.intLit 0),
          .rotateExpr (.div (.sub (.input 32) (.input 32)) (.neg (.doubleLit 4)))
            (.intLit 1) (.intLit 0) (.intLit 0),
          .rotateExpr (.floatLit 90) (.intLit 0) (.intLit 1) (.intLit 0),
          .rotateExpr (.neg (.input 0)) (.intLit 0) (.intLit 1) (.intLit 0),
          .rotateExpr (.input 0) (.intLit 0) (.intLit 0) (.intLit 1),
          .rotateExpr (.neg (.input 0)) (.intLit 1) (.intLit 0) (.intLit 0)]⟩) :=
  ⟨⟨by decide,
    PrepareRenderHUDModel_stereo_matrix sampleConfig sampleHUDConsts sampleVRMode
      sampleGeneric samplePlayer samplePlacement 0 32 VSMatrix.identity
      ModelRendererState.startup (by decide) (by decide)⟩,
   ⟨by decide, rfl,
    PrepareRenderHUDModel_stereo_matrix sampleConfig sampleHUDConsts plainStereoMode
      sampleGeneric samplePlayer samplePlacement 0 32 VSMatrix.identity
      ModelRendererState.startup (by decide) (fun _ => rfl)⟩⟩

/-- Claim C16: with an eye count of 1 or less, `PrepareRenderHUDModel` is the mono
path: it returns exactly the matrix the generic `FModelRenderer` routine
returns for the same arguments and leaves the render state (alpha function and
threshold, model matrix and its enable, normal view matrix, trace of calls)
untouched. -/
theorem PrepareRenderHUDModel_mono (cfg : Config) (k : HUDModelConsts)
    (vrmode : VRMode) (generic : GenericPrepareRenderHUDModel) (playermo : PlayerPose)
    (smf : FSpriteModelFramePlacement) (ofsX ofsY : ℚ) (objectToWorldMatrix : VSMatrix)
    (st : ModelRendererState) (h : vrmode.mEyeCount ≤ 1) :
    PrepareRenderHUDModel cfg k vrmode generic playermo smf ofsX ofsY objectToWorldMatrix st =
      monoPrepareRenderHUDModel generic playermo smf ofsX ofsY objectToWorldMatrix st ∧
    (PrepareRenderHUDModel cfg k vrmode generic playermo smf ofsX ofsY objectToWorldMatrix
        st).2 = generic playermo smf ofsX ofsY objectToWorldMatrix ∧
    (PrepareRenderHUDModel cfg k vrmode generic playermo smf ofsX ofsY objectToWorldMatrix
        st).1 = st := by
  have hn : ¬ vrmode.mEyeCount > 1 := by omega
  simp [PrepareRenderHUDModel, monoPrepareRenderHUDModel, hn]

/-- Witness for claim C16: in the mono mode the sample generic routine decides
the matrix and the state stays at its startup value. -/
theorem PrepareRenderHUDModel_mono_witness :
    monoMode.mEyeCount ≤ 1 ∧
    PrepareRenderHUDModel sampleConfig sampleHUDConsts monoMode sampleGeneric samplePlayer
        samplePlacement 0 32 VSMatrix.identity ModelRendererState.startup =
      (ModelRendererState.startup, ⟨[.multMatrix 1]⟩) :=
  ⟨by decide,
   (PrepareRenderHUDModel_mono sampleConfig sampleHUDConsts monoMode sampleGeneric
      samplePlayer samplePlacement 0 32 VSMatrix.identity ModelRendererState.startup
      (by decide)).1⟩

end GZ3Doom
